import Mathlib

/-!
# Verification of the gpt-trading-hybrid-bot signal-gating core

Shallow embedding of `src/gpt_signal_api.py`: the guard sequence
(forbidden hours, cooldown, dedup, daily risk), the quality scorer, the
news gate, the response parser, the signal pipelines, and the trade
journal.  Python machine floats are modelled as rationals (`ℚ`), UTC
times as rationals (seconds), dates as integers (day ordinals), and
Python `dict`s as association lists.  External effects (HTTP fetches,
the LLM call, the Telegram send) enter through an explicit `Env` record
and an `Effects` log, matching the code's call sites.
-/

set_option maxRecDepth 100000

attribute [local semireducible] Rat.add Rat.sub Rat.mul Rat.inv Rat.ofScientific

namespace TradingBot

/-! ## Python string primitives

Executable character-list models of the Python `str` operations the
source uses (`strip`, `lower`, `upper`, `startswith`, `split`, `in`,
`isdigit`); the inputs involved are ASCII. -/

/-- Python whitespace for `str.strip()`. -/
def pySpaceChar (c : Char) : Bool :=
  c == ' ' || c == '\t' || c == '\n' || c == '\r' || c == '\x0b' || c == '\x0c'

/-- `s.strip()`. -/
def pyTrim (s : String) : String :=
  ⟨((s.data.dropWhile pySpaceChar).reverse.dropWhile pySpaceChar).reverse⟩

/-- ASCII lower-casing of one character. -/
def pyLowerChar (c : Char) : Char :=
  if 65 ≤ c.toNat ∧ c.toNat ≤ 90 then Char.ofNat (c.toNat + 32) else c

/-- ASCII upper-casing of one character. -/
def pyUpperChar (c : Char) : Char :=
  if 97 ≤ c.toNat ∧ c.toNat ≤ 122 then Char.ofNat (c.toNat - 32) else c

/-- `s.lower()`. -/
def pyLower (s : String) : String := ⟨s.data.map pyLowerChar⟩

/-- `s.upper()`. -/
def pyUpper (s : String) : String := ⟨s.data.map pyUpperChar⟩

/-- Character-list prefix test. -/
def listStartsWith : List Char → List Char → Bool
  | _, [] => true
  | [], _ :: _ => false
  | c :: cs, p :: ps => c == p && listStartsWith cs ps

/-- `s.startswith(pre)`. -/
def pyStartsWith (s pre : String) : Bool := listStartsWith s.data pre.data

/-- Split a character list at every occurrence of `sep`. -/
def splitOnChar (sep : Char) : List Char → List (List Char)
  | [] => [[]]
  | c :: cs =>
    let r := splitOnChar sep cs
    if c == sep then [] :: r
    else
      match r with
      | [] => [[c]]
      | g :: gs => (c :: g) :: gs

/-- `s.split(sep)` for a one-character separator (the source only
splits on `","`, `"-"`, `":"` and `"\n"`). -/
def pySplit (sep : Char) (s : String) : List String :=
  (splitOnChar sep s.data).map fun l => ⟨l⟩

/-- `c in s` for a one-character needle. -/
def pyContains (s : String) (c : Char) : Bool := s.data.any (fun x => x == c)

/-- Decimal-digit test on one character. -/
def pyDigitChar (c : Char) : Bool := 48 ≤ c.toNat && c.toNat ≤ 57

/-! ## MD5 (model of Python's `hashlib.md5(...).hexdigest()`)

`throttle_and_dedup` deduplicates on the MD5 hex digest of the payload
string, so the hash is embedded executably (RFC 1321, little-endian,
over the UTF-8 bytes of the payload). -/

/-- The 32-bit modulus. -/
def w32 : Nat := 4294967296

/-- Left-rotate a 32-bit word by `n` bits. -/
def rotl32 (x n : Nat) : Nat := ((x <<< n) ||| (x >>> (32 - n))) % w32

/-- Bitwise complement of a 32-bit word. -/
def not32 (x : Nat) : Nat := 4294967295 - x

/-- The 64 sine-derived round constants of MD5. -/
def md5K : List Nat :=
  [0xd76aa478, 0xe8c7b756, 0x242070db, 0xc1bdceee,
   0xf57c0faf, 0x4787c62a, 0xa8304613, 0xfd469501,
   0x698098d8, 0x8b44f7af, 0xffff5bb1, 0x895cd7be,
   0x6b901122, 0xfd987193, 0xa679438e, 0x49b40821,
   0xf61e2562, 0xc040b340, 0x265e5a51, 0xe9b6c7aa,
   0xd62f105d, 0x02441453, 0xd8a1e681, 0xe7d3fbc8,
   0x21e1cde6, 0xc33707d6, 0xf4d50d87, 0x455a14ed,
   0xa9e3e905, 0xfcefa3f8, 0x676f02d9, 0x8d2a4c8a,
   0xfffa3942, 0x8771f681, 0x6d9d6122, 0xfde5380c,
   0xa4beea44, 0x4bdecfa9, 0xf6bb4b60, 0xbebfbc70,
   0x289b7ec6, 0xeaa127fa, 0xd4ef3085, 0x04881d05,
   0xd9d4d039, 0xe6db99e5, 0x1fa27cf8, 0xc4ac5665,
   0xf4292244, 0x432aff97, 0xab9423a7, 0xfc93a039,
   0x655b59c3, 0x8f0ccc92, 0xffeff47d, 0x85845dd1,
   0x6fa87e4f, 0xfe2ce6e0, 0xa3014314, 0x4e0811a1,
   0xf7537e82, 0xbd3af235, 0x2ad7d2bb, 0xeb86d391]

/-- The per-round left-rotation amounts of MD5. -/
def md5S : List Nat :=
  [7, 12, 17, 22, 7, 12, 17, 22, 7, 12, 17, 22, 7, 12, 17, 22,
   5, 9, 14, 20, 5, 9, 14, 20, 5, 9, 14, 20, 5, 9, 14, 20,
   4, 11, 16, 23, 4, 11, 16, 23, 4, 11, 16, 23, 4, 11, 16, 23,
   6, 10, 15, 21, 6, 10, 15, 21, 6, 10, 15, 21, 6, 10, 15, 21]

/-- MD5 running state: four 32-bit words. -/
structure MD5St where
  a : Nat
  b : Nat
  c : Nat
  d : Nat
deriving Repr, DecidableEq

/-- One MD5 round applied to the state, for round index `i` over the 16
message words `M` of the current chunk. -/
def md5Round (M : List Nat) (st : MD5St) (i : Nat) : MD5St :=
  let fg : Nat × Nat :=
    if i < 16 then ((st.b &&& st.c) ||| (not32 st.b &&& st.d), i)
    else if i < 32 then ((st.d &&& st.b) ||| (not32 st.d &&& st.c), (5 * i + 1) % 16)
    else if i < 48 then (st.b ^^^ st.c ^^^ st.d, (3 * i + 5) % 16)
    else (st.c ^^^ (st.b ||| not32 st.d), (7 * i) % 16)
  let F := (fg.1 + st.a + md5K.getD i 0 + M.getD fg.2 0) % w32
  ⟨st.d, (st.b + rotl32 F (md5S.getD i 0)) % w32, st.b, st.c⟩

/-- Group a 64-byte chunk into 16 little-endian 32-bit words. -/
def bytesToWords : List Nat → List Nat
  | b0 :: b1 :: b2 :: b3 :: rest =>
      (b0 + (b1 <<< 8) + (b2 <<< 16) + (b3 <<< 24)) :: bytesToWords rest
  | _ => []

/-- Process one 64-byte chunk. -/
def md5Chunk (st : MD5St) (chunk : List Nat) : MD5St :=
  let M := bytesToWords chunk
  let r := (List.range 64).foldl (md5Round M) st
  ⟨(st.a + r.a) % w32, (st.b + r.b) % w32, (st.c + r.c) % w32, (st.d + r.d) % w32⟩

/-- Process the padded message 64 bytes at a time.  `fuel` bounds the
recursion; it is called with the message length, which always exceeds the
number of chunks. -/
def md5Go : Nat → MD5St → List Nat → MD5St
  | 0, st, _ => st
  | _ + 1, st, [] => st
  | fuel + 1, st, l => md5Go fuel (md5Chunk st (l.take 64)) (l.drop 64)

/-- The eight little-endian bytes of a 64-bit length field. -/
def le64 (n : Nat) : List Nat := (List.range 8).map fun i => (n >>> (8 * i)) % 256

/-- The four little-endian bytes of a 32-bit word. -/
def le32 (n : Nat) : List Nat := (List.range 4).map fun i => (n >>> (8 * i)) % 256

/-- MD5 padding: append `0x80`, zero-pad to 56 mod 64, append the bit
length as 64-bit little-endian. -/
def md5Pad (msg : List Nat) : List Nat :=
  let len := msg.length
  let z := (120 - (len + 1) % 64) % 64
  msg ++ 0x80 :: List.replicate z 0 ++ le64 (8 * len)

/-- The 16 digest bytes of a byte message. -/
def md5Bytes (msg : List Nat) : List Nat :=
  let p := md5Pad msg
  let st := md5Go p.length ⟨0x67452301, 0xefcdab89, 0x98badcfe, 0x10325476⟩ p
  le32 st.a ++ le32 st.b ++ le32 st.c ++ le32 st.d

/-- Lower-case hex character of a nibble. -/
def hexChar (n : Nat) : Char :=
  if n < 10 then Char.ofNat (48 + n) else Char.ofNat (87 + n)

/-- Two lower-case hex characters of a byte. -/
def hexByte (b : Nat) : List Char := [hexChar (b / 16), hexChar (b % 16)]

/-- UTF-8 bytes of one character. -/
def utf8Char (c : Char) : List Nat :=
  let n := c.toNat
  if n < 0x80 then [n]
  else if n < 0x800 then [0xC0 ||| (n >>> 6), 0x80 ||| (n &&& 0x3F)]
  else if n < 0x10000 then
    [0xE0 ||| (n >>> 12), 0x80 ||| ((n >>> 6) &&& 0x3F), 0x80 ||| (n &&& 0x3F)]
  else
    [0xF0 ||| (n >>> 18), 0x80 ||| ((n >>> 12) &&& 0x3F),
     0x80 ||| ((n >>> 6) &&& 0x3F), 0x80 ||| (n &&& 0x3F)]

/-- UTF-8 bytes of a string (model of Python `str.encode("utf-8")`). -/
def strBytes (s : String) : List Nat :=
  s.data.foldr (fun c acc => utf8Char c ++ acc) []

/-- Model of `hashlib.md5(payload.encode("utf-8")).hexdigest()`. -/
def md5hex (s : String) : String :=
  ⟨(md5Bytes (strBytes s)).foldr (fun b acc => hexByte b ++ acc) []⟩

/-! ## Configuration and guard state

The environment-variable knobs of the service (`COOLDOWN_SECONDS`,
`DEDUP_WINDOW_SECONDS`, `QUALITY_MIN_SCORE`, `FORBIDDEN_UTC_HOURS`,
`RISK_PER_TRADE_PCT`, `MAX_DAILY_RISK_PCT`, `NEWS_BLOCK_ENABLED`,
`FORWARD_TO_CHANNEL`, `BOT_TOKEN`, `CHANNEL_ID`, `JOURNAL_CHANNEL_ID`)
and the process-wide mutable maps `_last_sig_time`, `_last_sig_hash`,
`_daily_risk_used`, `_daily_risk_day`. -/

structure Config where
  newsBlockEnabled : Bool
  cooldownSeconds : ℚ
  dedupWindowSeconds : ℚ
  qualityMinScore : ℤ
  forbiddenUtcHours : String
  riskPerTradePct : ℚ
  maxDailyRiskPct : ℚ
  forwardToChannel : Bool
  botToken : Option String
  channelId : Option String
  journalChannelId : Option String
deriving Repr, DecidableEq

/-- The default configuration (every knob at its `os.getenv` default;
`BOT_TOKEN`/`CHANNEL_ID` unset). -/
def defaultConfig : Config :=
  { newsBlockEnabled := true, cooldownSeconds := 300, dedupWindowSeconds := 180,
    qualityMinScore := 1, forbiddenUtcHours := "0-3", riskPerTradePct := 2,
    maxDailyRiskPct := 6, forwardToChannel := true, botToken := none,
    channelId := none, journalChannelId := none }

/-- Lookup in a Python `dict` modelled as an association list
(`d.get(k)`). -/
def dget {α : Type} (m : List (String × α)) (k : String) : Option α :=
  (m.find? (fun p => p.1 == k)).map (·.2)

/-- Update of a Python `dict` (`d[k] = v`). -/
def dset {α : Type} (m : List (String × α)) (k : String) (v : α) :
    List (String × α) :=
  (k, v) :: m.filter (fun p => p.1 != k)

/-- The process-wide guard state: `_last_sig_time`, `_last_sig_hash`,
`_daily_risk_used`, `_daily_risk_day`. -/
structure GuardState where
  lastSigTime : List (String × ℚ)
  lastSigHash : List (String × (String × ℚ))
  dailyRiskUsed : ℚ
  dailyRiskDay : Option ℤ
deriving Repr, DecidableEq

/-- The fresh process state: empty maps, zero budget, no stored day. -/
def initialGuardState : GuardState :=
  { lastSigTime := [], lastSigHash := [], dailyRiskUsed := 0, dailyRiskDay := none }

/-! ## Forbidden hours -/

/-- Model of Python `str.isdigit()` on the ASCII strings the
configuration uses: nonempty and all decimal digits. -/
def pyIsDigit (s : String) : Bool := !s.data.isEmpty && s.data.all pyDigitChar

/-- Model of Python `int(s)` on a whitespace-padded digit string. -/
def pyNat (s : String) : Nat :=
  (pyTrim s).data.foldl (fun a c => a * 10 + (c.toNat - 48)) 0

/-- The inclusive range test `A <= h <= B` of `forbidden_hours`. -/
def rangeHit (A B h : Nat) : Bool := decide (A ≤ h) && decide (h ≤ B)

/-- Truncation toward zero, the model of Python `int()` on a float. -/
def pyIntOfRat (q : ℚ) : ℤ := if 0 ≤ q then q.floor else -((-q).floor)

/-- The `for part in rng.split(",")` loop of `forbidden_hours`.  A part
containing `-` that does not split into exactly two pieces makes the
Python tuple unpacking `a, b = part.split("-")` raise, modelled as
`Except.error`. -/
def fhParts : List String → Nat → Except Unit Bool
  | [], _ => .ok false
  | p :: rest, h =>
    let part := pyTrim p
    if part = "" then fhParts rest h
    else if pyContains part '-' then
      match pySplit '-' part with
      | [a, b] =>
        if pyIsDigit (pyTrim a) && pyIsDigit (pyTrim b) then
          if rangeHit (pyNat a) (pyNat b) h then .ok true else fhParts rest h
        else fhParts rest h
      | _ => .error ()
    else if pyIsDigit part && pyNat part == h then .ok true else fhParts rest h

/-- `forbidden_hours()`: does the current UTC hour `h` fall in any
configured range of `rng` (the `FORBIDDEN_UTC_HOURS` string)? -/
def forbidden_hours (rng : String) (h : Nat) : Except Unit Bool :=
  if rng = "" then .ok false else fhParts (pySplit ',' rng) h

/-! ## Cooldown and deduplication -/

/-- `throttle_and_dedup(symbol, payload)`: returns a rejection reason
(`none` = pass) and the updated guard state.  The cooldown check runs
first; the state update (`_last_sig_time[symbol] = now`,
`_last_sig_hash[symbol] = (h, now)`) happens only after both the
cooldown and the duplicate check have passed. -/
def throttle_and_dedup (cfg : Config) (st : GuardState) (now : ℚ)
    (symbol payload : String) : Option String × GuardState :=
  let t0 := (dget st.lastSigTime symbol).getD 0
  if now - t0 < cfg.cooldownSeconds then
    (some ("COOLDOWN active (" ++
       toString (pyIntOfRat (cfg.cooldownSeconds - (now - t0))) ++ "s left)"), st)
  else
    let h := md5hex payload
    let dup : Bool :=
      match dget st.lastSigHash symbol with
      | some (ph, pt) => ph == h && decide (now - pt < cfg.dedupWindowSeconds)
      | none => false
    if dup then (some "DUPLICATE within window", st)
    else (none, { st with lastSigTime := dset st.lastSigTime symbol now,
                          lastSigHash := dset st.lastSigHash symbol (h, now) })

/-! ## Daily risk budget -/

/-- `reset_daily_risk_if_new_day()`: lazy midnight reset, run on every
access to the budget. -/
def reset_daily_risk_if_new_day (st : GuardState) (today : ℤ) : GuardState :=
  if st.dailyRiskDay ≠ some today then
    { st with dailyRiskDay := some today, dailyRiskUsed := 0 }
  else st

/-- `daily_risk_allowed()`: returns the verdict and the (possibly
reset) state. -/
def daily_risk_allowed (cfg : Config) (st : GuardState) (today : ℤ) :
    Bool × GuardState :=
  let st' := reset_daily_risk_if_new_day st today
  (decide (st'.dailyRiskUsed + cfg.riskPerTradePct ≤ cfg.maxDailyRiskPct), st')

/-- `apply_loss_to_risk_budget(loss_happened)`. -/
def apply_loss_to_risk_budget (cfg : Config) (st : GuardState) (today : ℤ)
    (lossHappened : Bool) : GuardState :=
  let st' := reset_daily_risk_if_new_day st today
  if lossHappened then
    { st' with dailyRiskUsed := st'.dailyRiskUsed + cfg.riskPerTradePct }
  else st'

/-! ## Quality score -/

/-- `quality_score(setup, funding, lsr, liq_recent)`. -/
def quality_score (setup : String) (funding lsr : Option ℚ)
    (liqRecent : Option ℤ) : ℤ :=
  let longBias := setup == "strong_long"
  let shortBias := setup == "strong_short"
  let s1 : ℤ := match funding with
    | some f => (if longBias && decide (f < 5 / 10000) then 1 else 0) +
                (if shortBias && decide (-(5 / 10000) < f) then 1 else 0)
    | none => 0
  let s2 : ℤ := match lsr with
    | some r => (if longBias && decide (r < 1) then 1 else 0) +
                (if shortBias && decide (1 < r) then 1 else 0)
    | none => 0
  let s3 : ℤ := match liqRecent with
    | some n => if decide (1 ≤ n) then 1 else 0
    | none => 0
  s1 + s2 + s3

/-! ## News gate -/

/-- The result of `news_signal(symbol)` (the display-only `news_brief`
string is omitted). -/
structure NewsSig where
  newsScore : ℤ
  block : Bool
deriving Repr, DecidableEq

/-- `news_signal(symbol)`: sums the per-post scores fetched from the
news provider (given here as the environment's `postScores`) and blocks
when news blocking is enabled and the total is at most `-2`. -/
def news_signal (cfg : Config) (postScores : List ℤ) : NewsSig :=
  let tot := postScores.sum
  ⟨tot, cfg.newsBlockEnabled && decide (tot ≤ -2)⟩

/-! ## Response parser -/

/-- The parsed signal record, with the defaults of `parse_signal`'s
`out` dict. -/
structure Parsed where
  Decision : String
  Entry : ℚ
  SL : ℚ
  TP1 : ℚ
  TP2 : ℚ
  RR : ℚ
  Why : String
  Risk : String
deriving Repr, DecidableEq

/-- The initial `out` dict of `parse_signal`. -/
def parseDefaults : Parsed := ⟨"WAIT", 0, 0, 0, 0, 3 / 2, "", ""⟩

/-- Numeric value of a digit run. -/
def digitsVal (ds : List Char) : Nat :=
  ds.foldl (fun a c => a * 10 + (c.toNat - 48)) 0

/-- Model of Python `float(s)`: optional sign, decimal digits with an
optional fraction, optional exponent; surrounding whitespace stripped.
(`inf`/`nan` and digit underscores, which the pipeline never feeds it,
are modelled as failures.)  `none` models a raised `ValueError`. -/
def pyFloat (s : String) : Option ℚ :=
  let cs := (pyTrim s).data
  let sgn : ℚ := match cs with
    | '-' :: _ => -1
    | _ => 1
  let cs1 : List Char := match cs with
    | '+' :: r => r
    | '-' :: r => r
    | r => r
  let ip := cs1.takeWhile pyDigitChar
  let r1 := cs1.dropWhile pyDigitChar
  let fp : List Char := match r1 with
    | '.' :: r => r.takeWhile pyDigitChar
    | _ => []
  let r2 : List Char := match r1 with
    | '.' :: r => r.dropWhile pyDigitChar
    | _ => r1
  if ip.isEmpty && fp.isEmpty then none
  else
    let mant : ℚ := (digitsVal ip : ℚ) + (digitsVal fp : ℚ) / ((10 : ℚ) ^ fp.length)
    match r2 with
    | [] => some (sgn * mant)
    | e :: r3 =>
      if e = 'e' ∨ e = 'E' then
        let eneg : Bool := match r3 with
          | '-' :: _ => true
          | _ => false
        let r4 : List Char := match r3 with
          | '+' :: r => r
          | '-' :: r => r
          | r => r
        let ed := r4.takeWhile pyDigitChar
        let r5 := r4.dropWhile pyDigitChar
        if ed.isEmpty || !r5.isEmpty then none
        else some (sgn * mant *
          (if eneg then 1 / ((10 : ℚ) ^ digitsVal ed) else ((10 : ℚ) ^ digitsVal ed)))
      else none

/-- Everything after the first colon of a character list. -/
def afterColon : List Char → List Char
  | [] => []
  | ':' :: rest => rest
  | _ :: rest => afterColon rest

/-- Model of Python `ln.split(":", 1)[1]` (everything after the first
colon). -/
def pySplitRest (ln : String) : String := ⟨afterColon ln.data⟩

/-- One iteration of `parse_signal`'s line loop: matches the known
prefixes in source order; a failing `float(...)` raises, modelled as
`Except.error`. -/
def procLine (out : Parsed) (ln : String) : Except Unit Parsed :=
  if pyStartsWith (pyLower ln) "decision:" then
    .ok (if pyUpper (pyTrim (pySplitRest ln)) = "LONG" ∨
           pyUpper (pyTrim (pySplitRest ln)) = "SHORT" ∨
           pyUpper (pyTrim (pySplitRest ln)) = "WAIT" then
           { out with Decision := pyUpper (pyTrim (pySplitRest ln)) }
         else out)
  else if pyStartsWith (pyLower ln) "entry:" then
    match pyFloat (pyTrim (pySplitRest ln)) with
    | some q => .ok { out with Entry := q }
    | none => .error ()
  else if pyStartsWith (pyLower ln) "sl:" then
    match pyFloat (pyTrim (pySplitRest ln)) with
    | some q => .ok { out with SL := q }
    | none => .error ()
  else if pyStartsWith (pyLower ln) "tp1:" then
    match pyFloat (pyTrim (pySplitRest ln)) with
    | some q => .ok { out with TP1 := q }
    | none => .error ()
  else if pyStartsWith (pyLower ln) "tp2:" then
    match pyFloat (pyTrim (pySplitRest ln)) with
    | some q => .ok { out with TP2 := q }
    | none => .error ()
  else if pyStartsWith (pyLower ln) "rr:" then
    match pyFloat (pyTrim (pySplitRest ln)) with
    | some q => .ok { out with RR := q }
    | none => .error ()
  else if pyStartsWith (pyLower ln) "why:" then .ok { out with Why := pyTrim (pySplitRest ln) }
  else if pyStartsWith (pyLower ln) "risk:" then .ok { out with Risk := pyTrim (pySplitRest ln) }
  else .ok out

/-- The stripped nonempty lines of the model output
(`[l.strip() for l in text.splitlines() if l.strip()]`). -/
def linesOf (text : String) : List String :=
  ((pySplit '\n' text).map pyTrim).filter (fun l => l != "")

/-- The line loop under the `try`: on an exception the loop aborts and
the accumulated `out` survives; the Boolean records whether an
exception occurred. -/
def parseRun : Parsed → List String → Parsed × Bool
  | out, [] => (out, false)
  | out, ln :: rest =>
    match procLine out ln with
    | .ok out' => parseRun out' rest
    | .error _ => (out, true)

/-- `parse_signal(text)`: the `try/except` wrapper returns the
accumulated `out` whether or not the loop raised. -/
def parse_signal (text : String) : Parsed :=
  (parseRun parseDefaults (linesOf text)).1

/-! ## Environment, effects, pipeline results -/

/-- The external world of one pipeline invocation: the clock
(`time.time()`, `datetime.utcnow().hour`, the UTC date ordinal, the
formatted timestamp), the enrichment fetch results, the per-post news
scores, the LLM replies (`openai_chat` / `openai_vision_decide`, both
already fallback-substituted strings), and whether the Telegram send
succeeds. -/
structure Env where
  now : ℚ
  utcHour : Nat
  today : ℤ
  tsStr : String
  funding : Option ℚ
  lsr : Option ℚ
  liqs : ℤ
  newsScores : List ℤ
  llmOut : String
  visionOut : String
  sendOk : Bool
deriving Repr, DecidableEq

/-- One journal row (the dict passed to `append_journal`). -/
structure Row where
  ts : String
  symbol : String
  tf : String
  setup : String
  price : ℚ
  decision : String
  entry : ℚ
  sl : ℚ
  tp1 : ℚ
  tp2 : ℚ
  rr : ℚ
  why : String
  risk : String
  funding : Option ℚ
  lsr5m : Option ℚ
  liqRecent : ℤ
  newsScore : ℤ
deriving Repr, DecidableEq

/-- The observable side effects of one pipeline run: whether the LLM
was called, the rows handed to `append_journal`, and the (discarded)
Boolean results of the `tg_send_message` calls. -/
structure Effects where
  llmCalled : Bool
  journal : List Row
  notifies : List Bool
deriving Repr, DecidableEq

/-- No side effects. -/
def noEffects : Effects := ⟨false, [], []⟩

/-- A pipeline return value: `{"status": .., "reason": ..}` or
`{"status": "OK", "row": .., "llm_raw": ..}`. -/
structure FlowResult where
  status : String
  reason : String
  row : Option Row
  llmRaw : Option String
deriving Repr, DecidableEq

/-- A gate rejection `{"status": "WAIT", "reason": reason}`. -/
def rejectResult (reason : String) : FlowResult := ⟨"WAIT", reason, none, none⟩

/-- `tg_send_message(text, channel_id)`: `False` when the bot token or
every channel id is missing; otherwise the HTTP outcome (`sendOk`;
exceptions are caught inside and also yield `False`).  The message text
does not influence the result. -/
def tg_send_message (cfg : Config) (sendOk : Bool) (_text : String)
    (channelId : Option String) : Bool :=
  if cfg.botToken.isNone || (cfg.channelId.isNone && channelId.isNone) then false
  else sendOk

/-- Model of Python float formatting `f"{price}"` as used in the dedup
payload: integral values render as `n.0` (Python's repr of such
floats); other rationals fall back to their own rendering. -/
def pyFloatStr (q : ℚ) : String :=
  if q.den = 1 then toString q.num ++ ".0" else toString q

/-- The Telegram sends of the notification step shared by both
pipelines: main channel first (when forwarding is on and a channel is
configured), then the optional archive channel.  The Booleans returned
by `tg_send_message` are discarded by the caller; they are recorded
here as effects. -/
def notifySends (cfg : Config) (env : Env) : List Bool :=
  if cfg.forwardToChannel && cfg.channelId.isSome then
    tg_send_message cfg env.sendOk "msg" cfg.channelId ::
      (if cfg.journalChannelId.isSome then
        [tg_send_message cfg env.sendOk "archive" cfg.journalChannelId]
      else [])
  else []

/-! ## The webhook pipeline `run_signal_flow` -/

/-- The dedup payload `f"{symbol}|{tf}|{setup}|{price}|{context_text}"`. -/
def payloadOf (symbol tf setup : String) (price : ℚ) (ctx : String) : String :=
  symbol ++ "|" ++ tf ++ "|" ++ setup ++ "|" ++ pyFloatStr price ++ "|" ++ ctx

/-- The journal row `run_signal_flow` builds from the parsed LLM reply
and the enrichment values. -/
def mkFlowRow (cfg : Config) (env : Env) (symbol tf setup : String) (price : ℚ) : Row :=
  { ts := env.tsStr, symbol := symbol, tf := tf, setup := setup, price := price,
    decision := (parse_signal env.llmOut).Decision, entry := (parse_signal env.llmOut).Entry,
    sl := (parse_signal env.llmOut).SL, tp1 := (parse_signal env.llmOut).TP1,
    tp2 := (parse_signal env.llmOut).TP2, rr := (parse_signal env.llmOut).RR,
    why := (parse_signal env.llmOut).Why, risk := (parse_signal env.llmOut).Risk,
    funding := env.funding, lsr5m := env.lsr, liqRecent := env.liqs,
    newsScore := (news_signal cfg env.newsScores).newsScore }

/-- `run_signal_flow(symbol, tf, setup, price, context_text)`: the
gate sequence, enrichment, LLM call, parse, journal append and
notification, returning the result, the updated guard state and the
effect log.  `Except.error` models an uncaught exception (only possible
from a malformed forbidden-hours range). -/
def run_signal_flow (cfg : Config) (st : GuardState) (env : Env)
    (symbol tf setup : String) (price : ℚ) (contextText : String) :
    Except Unit (FlowResult × GuardState × Effects) :=
  match forbidden_hours cfg.forbiddenUtcHours env.utcHour with
  | .error e => .error e
  | .ok fh =>
    if fh then .ok (rejectResult "forbidden_hours", st, noEffects)
    else
      match throttle_and_dedup cfg st env.now symbol
          (payloadOf symbol tf setup price contextText) with
      | (some ded, st1) => .ok (rejectResult ded, st1, noEffects)
      | (none, st1) =>
        if (daily_risk_allowed cfg st1 env.today).1 = false then
          .ok (rejectResult "daily_risk_cap", (daily_risk_allowed cfg st1 env.today).2, noEffects)
        else if (news_signal cfg env.newsScores).block then
          .ok (rejectResult "negative_news_block",
               (daily_risk_allowed cfg st1 env.today).2, noEffects)
        else if quality_score setup env.funding env.lsr (some env.liqs) < cfg.qualityMinScore then
          .ok (rejectResult ("quality<" ++ toString cfg.qualityMinScore),
               (daily_risk_allowed cfg st1 env.today).2, noEffects)
        else
          .ok (⟨"OK", "", some (mkFlowRow cfg env symbol tf setup price), some env.llmOut⟩,
               (daily_risk_allowed cfg st1 env.today).2,
               ⟨true, [mkFlowRow cfg env symbol tf setup price], notifySends cfg env⟩)

/-! ## The vision pipeline `run_signal_from_vision` -/

/-- `run_signal_from_vision(symbol_hint, tf_hint, setup_hint,
price_hint, image_url, caption)`: enrichment, vision LLM call, parse,
journal append and notification — with no guard checks and no guard
state access (the state is threaded through unchanged). -/
def run_signal_from_vision (cfg : Config) (st : GuardState) (env : Env)
    (symbolHint tfHint setupHint : String) (priceHint : ℚ)
    (_imageUrl _caption : String) : FlowResult × GuardState × Effects :=
  let raw := env.visionOut
  let parsed := parse_signal raw
  let sym := pyUpper (if symbolHint = "" then "BTCUSDT" else symbolHint)
  let tf := if tfHint = "" then "15m" else tfHint
  let setup := if setupHint = "" then "neutral" else setupHint
  let price := if priceHint = 0 then 0 else priceHint
  let row : Row :=
    { ts := env.tsStr, symbol := sym, tf := tf, setup := setup, price := price,
      decision := parsed.Decision, entry := parsed.Entry, sl := parsed.SL,
      tp1 := parsed.TP1, tp2 := parsed.TP2, rr := parsed.RR,
      why := parsed.Why, risk := parsed.Risk,
      funding := env.funding, lsr5m := env.lsr, liqRecent := env.liqs, newsScore := 0 }
  (⟨"OK", "", some row, some raw⟩, st, ⟨true, [row], notifySends cfg env⟩)

instance {e a : Type} [DecidableEq e] [DecidableEq a] : DecidableEq (Except e a) := fun x y =>
  match x, y with
  | .error u, .error v =>
    if h : u = v then isTrue (congrArg Except.error h)
    else isFalse (fun hh => h (by injection hh))
  | .error _, .ok _ => isFalse (fun hh => Except.noConfusion hh)
  | .ok _, .error _ => isFalse (fun hh => Except.noConfusion hh)
  | .ok u, .ok v =>
    if h : u = v then isTrue (congrArg Except.ok h)
    else isFalse (fun hh => h (by injection hh))

/-! ## Trade journal state machine

Modelled from the spec: the command-driven journal state machine
(`create` / `fill` / `exit` / `status` with P&L recomputation, spec
section 4.6) belongs to other variants of this repository; the source
file under `src/` only contains the append-only writer
`append_journal`.  The definitions below follow the spec's words. -/

/-- Modelled from the spec: one ledger row of the journal state
machine (the fields the commands touch). -/
structure JEntry where
  id : String
  decision : String
  status : String
  fillPrice : Option ℚ
  exitPrice : Option ℚ
  pnlAbs : Option ℚ
  pnlPct : Option ℚ
  stopLoss : ℚ
deriving Repr, DecidableEq

/-- The reply to a journal command. -/
inductive CmdReply where
  | done
  | row (e : JEntry)
  | notFound
deriving Repr, DecidableEq

/-- The ledger: rows keyed by the unique trade identifier. -/
abbrev Ledger := List JEntry

/-- Find the row with the given identifier. -/
def jlookup (l : Ledger) (id : String) : Option JEntry :=
  List.find? (fun e => e.id == id) l

/-- Rewrite the row with the given identifier in place. -/
def jupdate (l : Ledger) (id : String) (f : JEntry → JEntry) : Ledger :=
  List.map (fun e => if e.id == id then f e else e) l

/-- Modelled from the spec: on any mutating transition, if both
`fill_price` and `exit_price` are present, recompute
`pnl_abs = (exit - fill) if decision==LONG else (fill - exit)` and
`pnl_pct = pnl_abs / fill_price * 100` when `fill_price ≠ 0`; both are
left blank otherwise. -/
def recomputePnl (e : JEntry) : JEntry :=
  match e.fillPrice, e.exitPrice with
  | some fill, some ex =>
    let pabs : ℚ := if e.decision = "LONG" then ex - fill else fill - ex
    { e with pnlAbs := some pabs,
             pnlPct := if fill ≠ 0 then some (pabs / fill * 100) else none }
  | _, _ => { e with pnlAbs := none, pnlPct := none }

/-- Modelled from the spec: `create(row)` — insert if the identifier is
absent, update in place otherwise (upsert). -/
def jcreate (l : Ledger) (e : JEntry) : Ledger :=
  if (jlookup l e.id).isSome then jupdate l e.id (fun _ => e) else l ++ [e]

/-- Modelled from the spec: `fill(id, price)` — requires the entry to
exist; sets `status=filled`, `fill_price=price`, recomputes P&L; an
unknown identifier reports not-found and mutates nothing. -/
def jfill (l : Ledger) (id : String) (price : ℚ) : Ledger × CmdReply :=
  match jlookup l id with
  | none => (l, .notFound)
  | some _ =>
    (jupdate l id (fun e => recomputePnl { e with status := "filled", fillPrice := some price }),
     .done)

/-- Modelled from the spec: `exit(id, price)` — sets `status=exit`,
`exit_price=price`, recomputes P&L; an unknown identifier reports
not-found and mutates nothing. -/
def jexit (l : Ledger) (id : String) (price : ℚ) : Ledger × CmdReply :=
  match jlookup l id with
  | none => (l, .notFound)
  | some _ =>
    (jupdate l id (fun e => recomputePnl { e with status := "exit", exitPrice := some price }),
     .done)

/-- Modelled from the spec: `status(id)` — read-only query returning
the full row, or an explicit not-found reply; the ledger is returned
untouched. -/
def jstatus (l : Ledger) (id : String) : Ledger × CmdReply :=
  match jlookup l id with
  | none => (l, .notFound)
  | some e => (l, .row e)

/-- A fresh `new` row as `create` receives it from the pipeline. -/
def newEntry (id decision : String) (stopLoss : ℚ) : JEntry :=
  { id := id, decision := decision, status := "new", fillPrice := none,
    exitPrice := none, pnlAbs := none, pnlPct := none, stopLoss := stopLoss }

/-! ## Concrete scenario fixtures -/

/-- Projection of a pipeline result to (status, journal length, send
results). -/
def flowView (x : FlowResult × GuardState × Effects) : String × Nat × List Bool :=
  (x.1.status, x.2.2.journal.length, x.2.2.notifies)

/-- A deployment configuration with forwarding enabled (bot token and
main channel set), every other knob at its default. -/
def cfgW : Config := { defaultConfig with botToken := some "T", channelId := some "C" }

/-- An environment at UTC hour 4 (outside the default "0-3" window),
clock at 1000 s, one recent liquidation, no news posts, a well-formed
LLM reply — and the Telegram send failing. -/
def envW : Env :=
  { now := 1000, utcHour := 4, today := 10, tsStr := "2025-01-01 00:00:00 UTC",
    funding := none, lsr := none, liqs := 1, newsScores := [],
    llmOut := "Decision: LONG\nEntry: 100\nSL: 95\nTP1: 110\nTP2: 120\nRR: 1.8\nWhy: w\nRisk: k",
    visionOut := "Decision: WAIT", sendOk := false }

/-!
# Theorems

Sanity checks of the embedding against the Python behavior, helper
lemmas, and the claim theorems.
-/

example : forbidden_hours "0-3" 2 = .ok true := by decide
example : forbidden_hours "0-3" 4 = .ok false := by decide
example : forbidden_hours "22-3" 23 = .ok false := by decide
example : forbidden_hours "1-2-3" 23 = .error () := by decide
example : pyFloat "1.8" = some (mkRat 9 5) := by decide
example : pyFloat "abc" = none := by decide
example : pyFloat "95" = some 95 := by decide
example : pyFloat "-2.5e1" = some (-25) := by decide
example : parse_signal "Decision: LONG\nEntry: 100\nSL: 95\nTP1: 110\nTP2: 120\nRR: 1.8\nWhy: a b\nRisk: c" =
    ⟨"LONG", 100, 95, 110, 120, mkRat 9 5, "a b", "c"⟩ := by decide
example : parse_signal "junk" = parseDefaults := by decide
example :
    (throttle_and_dedup defaultConfig initialGuardState 1000 "BTCUSDT" "p").1 = none := by decide
example :
    (throttle_and_dedup defaultConfig
      ((throttle_and_dedup defaultConfig initialGuardState 1000 "BTCUSDT" "p").2)
      1100 "BTCUSDT" "p").1 = some "COOLDOWN active (200s left)" := by decide

/-! ## C1 — journal state machine -/

/-- **C1**: the journal command state machine: `create` then
`fill(id, 100)` then `exit(id, 110)` on a LONG trade yields
`pnl_abs = 10` and `pnl_pct = 10.0`; the same `create`/`fill(100)`/
`exit(90)` sequence on a SHORT trade also yields `pnl_abs = 10` and
`pnl_pct = 10.0`; and `status` on an identifier absent from the ledger
returns the explicit not-found reply with the ledger unchanged (and in
particular does not crash: `jstatus` is total). -/
theorem journal_pnl_and_status_notfound :
    ((jlookup (jexit (jfill (jcreate [] (newEntry "t1" "LONG" 0)) "t1" 100).1 "t1" 110).1
        "t1").map (fun e => (e.status, e.pnlAbs, e.pnlPct)) =
      some ("exit", some 10, some 10)) ∧
    ((jlookup (jexit (jfill (jcreate [] (newEntry "s1" "SHORT" 0)) "s1" 100).1 "s1" 90).1
        "s1").map (fun e => (e.status, e.pnlAbs, e.pnlPct)) =
      some ("exit", some 10, some 10)) ∧
    (∀ (l : Ledger) (id : String), jlookup l id = none →
      jstatus l id = (l, CmdReply.notFound)) := by
  refine ⟨by decide, by decide, ?_⟩
  intro l id h
  unfold jstatus
  rw [h]

/-- Witness for `journal_pnl_and_status_notfound`: the not-found branch
at a concrete ledger and unknown identifier. -/
theorem journal_pnl_and_status_notfound_witness :
    jstatus [newEntry "t1" "LONG" 0] "missing" =
      ([newEntry "t1" "LONG" 0], CmdReply.notFound) :=
  journal_pnl_and_status_notfound.2.2 [newEntry "t1" "LONG" 0] "missing" (by decide)

/-! ## C6 — quality score -/

/-- The funding-rate block of `quality_score` contributes at most one
point: the long-bias and short-bias conditions cannot both hold. -/
theorem funding_points_le_one (setup : String) (f : ℚ) :
    ((if setup == "strong_long" && decide (f < 5 / 10000) then (1 : ℤ) else 0) +
     (if setup == "strong_short" && decide (-(5 / 10000) < f) then (1 : ℤ) else 0)) ≤ 1 := by
  by_cases hl : setup = "strong_long"
  · have hsf : (setup == "strong_short") = false := by
      rw [hl]
      decide
    simp only [hsf, Bool.false_and, Bool.false_eq_true, if_false]
    split_ifs <;> norm_num
  · have hlf : (setup == "strong_long") = false := beq_eq_false_iff_ne.mpr hl
    simp only [hlf, Bool.false_and, Bool.false_eq_true, if_false]
    split_ifs <;> norm_num

/-- The long/short-ratio block of `quality_score` contributes at most
one point. -/
theorem lsr_points_le_one (setup : String) (r : ℚ) :
    ((if setup == "strong_long" && decide (r < 1) then (1 : ℤ) else 0) +
     (if setup == "strong_short" && decide (1 < r) then (1 : ℤ) else 0)) ≤ 1 := by
  by_cases hl : setup = "strong_long"
  · have hsf : (setup == "strong_short") = false := by
      rw [hl]
      decide
    simp only [hsf, Bool.false_and, Bool.false_eq_true, if_false]
    split_ifs <;> norm_num
  · have hlf : (setup == "strong_long") = false := beq_eq_false_iff_ne.mpr hl
    simp only [hlf, Bool.false_and, Bool.false_eq_true, if_false]
    split_ifs <;> norm_num

/-- **C6**: the quality scorer starts at 0 and adds one point for each
of funding-supports-bias, ratio-supports-bias, and recent liquidation
activity: `quality_score("strong_long", 0.0004, 0.9, 1) = 3`,
`quality_score("neutral", 0.0004, 0.9, 1) = 1` (the bias-dependent
checks do not apply to a neutral setup), and the score never exceeds
three. -/
theorem quality_score_boundary_and_max :
    quality_score "strong_long" (some (4 / 10000)) (some (9 / 10)) (some 1) = 3 ∧
    quality_score "neutral" (some (4 / 10000)) (some (9 / 10)) (some 1) = 1 ∧
    ∀ (setup : String) (funding lsr : Option ℚ) (liq : Option ℤ),
      quality_score setup funding lsr liq ≤ 3 := by
  refine ⟨by decide, by decide, ?_⟩
  intro setup funding lsr liq
  have hbias : (setup == "strong_long") = false ∨ (setup == "strong_short") = false := by
    by_cases hl : setup = "strong_long"
    · right
      rw [hl]
      decide
    · exact Or.inl (beq_eq_false_iff_ne.mpr hl)
  simp only [quality_score]
  rcases funding with _ | f <;> rcases lsr with _ | r <;> rcases liq with _ | n <;>
    dsimp only <;>
    rcases hbias with hb | hb <;>
      (try simp only [hb, Bool.false_and, Bool.false_eq_true, if_false]) <;>
      (try split_ifs) <;> omega

/-! ## C8 — daily risk budget -/

/-- **C8**: `daily_risk_allowed` rejects exactly when
`daily_risk_used + risk_per_trade_pct > max_daily_risk_pct` for the
(lazily reset) current UTC day; whenever the stored day differs from
today the budget is reset to zero and the day stored — on access, not
by a timer — and when the day matches nothing changes. -/
theorem daily_risk_budget_check :
    ∀ (cfg : Config) (st : GuardState) (today : ℤ),
      ((daily_risk_allowed cfg st today).1 = false ↔
        cfg.maxDailyRiskPct <
          (reset_daily_risk_if_new_day st today).dailyRiskUsed + cfg.riskPerTradePct) ∧
      (st.dailyRiskDay ≠ some today →
        (daily_risk_allowed cfg st today).2.dailyRiskUsed = 0 ∧
        (daily_risk_allowed cfg st today).2.dailyRiskDay = some today) ∧
      (st.dailyRiskDay = some today → (daily_risk_allowed cfg st today).2 = st) := by
  intro cfg st today
  refine ⟨?_, ?_, ?_⟩
  · unfold daily_risk_allowed
    dsimp only
    rw [decide_eq_false_iff_not]
    exact not_le
  · intro h
    unfold daily_risk_allowed reset_daily_risk_if_new_day
    dsimp only
    rw [if_pos h]
    exact ⟨rfl, rfl⟩
  · intro h
    unfold daily_risk_allowed reset_daily_risk_if_new_day
    dsimp only
    rw [if_neg (by simp [h])]

/-- Witness for `daily_risk_budget_check`: with the default limits
(2% per trade, 6% cap) a day that already used 5% rejects the next
alert, and a stale stored day is reset to zero on access. -/
theorem daily_risk_budget_check_witness :
    (daily_risk_allowed defaultConfig ⟨[], [], 5, some 10⟩ 10).1 = false ∧
    (daily_risk_allowed defaultConfig ⟨[], [], 5, some 9⟩ 10).2.dailyRiskUsed = 0 := by
  constructor
  · exact (daily_risk_budget_check defaultConfig ⟨[], [], 5, some 10⟩ 10).1.mpr (by decide)
  · exact ((daily_risk_budget_check defaultConfig ⟨[], [], 5, some 9⟩ 10).2.1 (by decide)).1

/-! ## Cooldown / dedup lemmas (C3, C5) -/

/-- Writing a key into a dict model makes lookup return it. -/
theorem dget_dset {α : Type} (m : List (String × α)) (k : String) (v : α) :
    dget (dset m k v) k = some v := by
  simp [dget, dset, List.find?_cons]

/-- A list starts with itself before any suffix. -/
theorem listStartsWith_append (a b : List Char) : listStartsWith (a ++ b) a = true := by
  induction a with
  | nil => simp [listStartsWith]
  | cons c cs ih => simp [listStartsWith, ih]

/-- A doubly-appended string starts with its first component. -/
theorem pyStartsWith_prefix_two (a x y : String) :
    pyStartsWith (a ++ x ++ y) a = true := by
  unfold pyStartsWith
  rw [String.data_append, String.data_append, List.append_assoc]
  exact listStartsWith_append _ _

/-- When `throttle_and_dedup` passes, the returned state stores the
current time and the payload hash under the symbol. -/
theorem throttle_pass_updates (cfg : Config) (st : GuardState) (now : ℚ)
    (symbol payload : String) (st' : GuardState)
    (h : throttle_and_dedup cfg st now symbol payload = (none, st')) :
    dget st'.lastSigTime symbol = some now ∧
    dget st'.lastSigHash symbol = some (md5hex payload, now) := by
  unfold throttle_and_dedup at h
  by_cases h1 : now - ((dget st.lastSigTime symbol).getD 0) < cfg.cooldownSeconds
  · rw [if_pos h1] at h
    simp at h
  · rw [if_neg h1] at h
    dsimp only at h
    split_ifs at h with h2
    · simp at h
    · injection h with hfst hsnd
      subst hsnd
      exact ⟨dget_dset _ _ _, dget_dset _ _ _⟩

/-- When `throttle_and_dedup` rejects, the guard state is returned
unchanged. -/
theorem throttle_reject_keeps_state (cfg : Config) (st : GuardState) (now : ℚ)
    (symbol payload msg : String) (st' : GuardState)
    (h : throttle_and_dedup cfg st now symbol payload = (some msg, st')) : st' = st := by
  unfold throttle_and_dedup at h
  by_cases h1 : now - ((dget st.lastSigTime symbol).getD 0) < cfg.cooldownSeconds
  · rw [if_pos h1] at h
    injection h with _ h2
    exact h2.symm
  · rw [if_neg h1] at h
    dsimp only at h
    split_ifs at h with h2
    · injection h with _ h2'
      exact h2'.symm
    · simp at h

/-- Every rejection message of `throttle_and_dedup` is either the
cooldown message or the duplicate message. -/
theorem throttle_msg_shape (cfg : Config) (st : GuardState) (now : ℚ)
    (symbol payload msg : String) (st' : GuardState)
    (h : throttle_and_dedup cfg st now symbol payload = (some msg, st')) :
    pyStartsWith msg "COOLDOWN active (" = true ∨ msg = "DUPLICATE within window" := by
  unfold throttle_and_dedup at h
  by_cases h1 : now - ((dget st.lastSigTime symbol).getD 0) < cfg.cooldownSeconds
  · rw [if_pos h1] at h
    injection h with h2 _
    injection h2 with h2
    left
    rw [← h2]
    exact pyStartsWith_prefix_two _ _ _
  · rw [if_neg h1] at h
    dsimp only at h
    split_ifs at h with h2
    · injection h with h2' _
      injection h2' with h2'
      right
      exact h2'.symm
    · simp at h

/-! ## C5 — deduplication window -/

/-- **C5** (amended): within the dedup window an identical alert is
rejected — labeled `DUPLICATE within window` exactly when the cooldown
has separately elapsed, and labeled with the cooldown reason when the
cooldown is still active, since the cooldown check fires first; a
changed `context` string produces a different content hash (witnessed
at concrete payloads) and such an alert is not rejected as a
duplicate. -/
theorem dedup_window_behavior :
    (∀ (cfg : Config) (st : GuardState) (now pt : ℚ) (symbol payload : String),
      ¬(now - (dget st.lastSigTime symbol).getD 0 < cfg.cooldownSeconds) →
      dget st.lastSigHash symbol = some (md5hex payload, pt) →
      now - pt < cfg.dedupWindowSeconds →
      throttle_and_dedup cfg st now symbol payload =
        (some "DUPLICATE within window", st)) ∧
    (∀ (cfg : Config) (st : GuardState) (now : ℚ) (symbol payload : String),
      now - (dget st.lastSigTime symbol).getD 0 < cfg.cooldownSeconds →
      pyStartsWith ((throttle_and_dedup cfg st now symbol payload).1.getD "")
        "COOLDOWN active (" = true) ∧
    md5hex (payloadOf "BTCUSDT" "15m" "neutral" 100 "ctx-a") ≠
      md5hex (payloadOf "BTCUSDT" "15m" "neutral" 100 "ctx-b") ∧
    (throttle_and_dedup { defaultConfig with dedupWindowSeconds := 600 }
      ⟨[("BTCUSDT", 1000)],
       [("BTCUSDT", (md5hex (payloadOf "BTCUSDT" "15m" "neutral" 100 "ctx-a"), 1000))],
       0, none⟩
      1400 "BTCUSDT" (payloadOf "BTCUSDT" "15m" "neutral" 100 "ctx-b")).1 = none := by
  refine ⟨?_, ?_, by decide, by decide⟩
  · intro cfg st now pt symbol payload h1 h2 h3
    simp only [throttle_and_dedup]
    rw [if_neg h1, h2]
    simp [h3]
  · intro cfg st now symbol payload h1
    simp only [throttle_and_dedup]
    rw [if_pos h1]
    exact pyStartsWith_prefix_two _ _ _

/-- Witness for `dedup_window_behavior`: a duplicate after the cooldown
elapsed (dedup window widened to 600 s) and a second alert inside the
cooldown. -/
theorem dedup_window_behavior_witness :
    throttle_and_dedup { defaultConfig with dedupWindowSeconds := 600 }
      ⟨[("B", 1000)], [("B", (md5hex "pl", 1000))], 0, none⟩ 1400 "B" "pl" =
      (some "DUPLICATE within window",
       ⟨[("B", 1000)], [("B", (md5hex "pl", 1000))], 0, none⟩) ∧
    pyStartsWith ((throttle_and_dedup defaultConfig
      ⟨[("B", 1000)], [("B", (md5hex "pl", 1000))], 0, none⟩ 1100 "B" "pl").1.getD "")
      "COOLDOWN active (" = true := by
  constructor
  · exact dedup_window_behavior.1 { defaultConfig with dedupWindowSeconds := 600 }
      ⟨[("B", 1000)], [("B", (md5hex "pl", 1000))], 0, none⟩ 1400 1000 "B" "pl"
      (by decide) (by decide) (by decide)
  · exact dedup_window_behavior.2.1 defaultConfig
      ⟨[("B", 1000)], [("B", (md5hex "pl", 1000))], 0, none⟩ 1100 "B" "pl" (by decide)

/-- **C5** counterexample: with the default configuration
(`COOLDOWN_SECONDS = 300` exceeds `DEDUP_WINDOW_SECONDS = 180`) an
identical alert re-submitted 100 s after the first — inside the dedup
window — is rejected with the cooldown reason, not as a duplicate,
because the cooldown check fires first. -/
theorem dup_within_window_labeled_cooldown_cex :
    (throttle_and_dedup defaultConfig
      ⟨[("BTCUSDT", 1000)],
       [("BTCUSDT", (md5hex (payloadOf "BTCUSDT" "15m" "neutral" 100 "ctx-a"), 1000))],
       0, none⟩
      1100 "BTCUSDT" (payloadOf "BTCUSDT" "15m" "neutral" 100 "ctx-a")).1 =
      some "COOLDOWN active (200s left)" ∧
    some "COOLDOWN active (200s left)" ≠ some "DUPLICATE within window" := by decide

/-! ## C3 — counterexample -/

/-- **C3** counterexample: the claim has the guard updating the
per-symbol cooldown/dedup state as soon as the cooldown check passes,
independent of the deduplication outcome; in the code a duplicate
rejection (here: cooldown elapsed, same hash inside a widened dedup
window) leaves `_last_sig_time` at its old value instead of the current
time 1400. -/
theorem dedup_reject_consumes_no_slot_cex :
    throttle_and_dedup { defaultConfig with dedupWindowSeconds := 600 }
      ⟨[("BTCUSDT", 1000)],
       [("BTCUSDT", (md5hex (payloadOf "BTCUSDT" "15m" "neutral" 0 "x"), 1000))], 0, none⟩
      1400 "BTCUSDT" (payloadOf "BTCUSDT" "15m" "neutral" 0 "x") =
      (some "DUPLICATE within window",
       ⟨[("BTCUSDT", 1000)],
        [("BTCUSDT", (md5hex (payloadOf "BTCUSDT" "15m" "neutral" 0 "x"), 1000))], 0, none⟩) ∧
    dget (⟨[("BTCUSDT", 1000)],
       [("BTCUSDT", (md5hex (payloadOf "BTCUSDT" "15m" "neutral" 0 "x"), 1000))], 0,
       none⟩ : GuardState).lastSigTime "BTCUSDT" = some 1000 ∧
    (1000 : ℚ) ≠ 1400 := by decide

/-! ## Pipeline case analysis (C2, C3, C4, C10) -/

/-- Injectivity of an `ok` triple. -/
theorem ok3_inj {A B C : Type} {a : A} {b : B} {c : C} {a' : A} {b' : B} {c' : C}
    (h : (Except.ok (a, b, c) : Except Unit (A × B × C)) = .ok (a', b', c')) :
    a = a' ∧ b = b' ∧ c = c' := by
  injection h with h
  injection h with h1 h2
  injection h2 with h2 h3
  exact ⟨h1, h2, h3⟩

/-- Exhaustive description of the results of `run_signal_flow`: the
forbidden-hours rejection, a throttle rejection, the daily-risk
rejection, the news block, the quality rejection, or the accepting run
with its journal row and notifications. -/
theorem flow_ok_cases (cfg : Config) (st : GuardState) (env : Env)
    (symbol tf setup : String) (price : ℚ) (ctx : String)
    (r : FlowResult) (st' : GuardState) (eff : Effects)
    (hrun : run_signal_flow cfg st env symbol tf setup price ctx = .ok (r, st', eff)) :
    (forbidden_hours cfg.forbiddenUtcHours env.utcHour = .ok true ∧
      r = rejectResult "forbidden_hours" ∧ st' = st ∧ eff = noEffects) ∨
    (∃ msg, throttle_and_dedup cfg st env.now symbol (payloadOf symbol tf setup price ctx) =
        (some msg, st') ∧ r = rejectResult msg ∧ eff = noEffects) ∨
    (∃ st1, throttle_and_dedup cfg st env.now symbol (payloadOf symbol tf setup price ctx) =
        (none, st1) ∧ st' = (daily_risk_allowed cfg st1 env.today).2 ∧
      (((daily_risk_allowed cfg st1 env.today).1 = false ∧
          r = rejectResult "daily_risk_cap" ∧ eff = noEffects) ∨
       ((daily_risk_allowed cfg st1 env.today).1 = true ∧
          (news_signal cfg env.newsScores).block = true ∧
          r = rejectResult "negative_news_block" ∧ eff = noEffects) ∨
       ((daily_risk_allowed cfg st1 env.today).1 = true ∧
          (news_signal cfg env.newsScores).block = false ∧
          quality_score setup env.funding env.lsr (some env.liqs) < cfg.qualityMinScore ∧
          r = rejectResult ("quality<" ++ toString cfg.qualityMinScore) ∧ eff = noEffects) ∨
       ((daily_risk_allowed cfg st1 env.today).1 = true ∧
          (news_signal cfg env.newsScores).block = false ∧
          ¬quality_score setup env.funding env.lsr (some env.liqs) < cfg.qualityMinScore ∧
          r = ⟨"OK", "", some (mkFlowRow cfg env symbol tf setup price), some env.llmOut⟩ ∧
          eff = ⟨true, [mkFlowRow cfg env symbol tf setup price], notifySends cfg env⟩))) := by
  unfold run_signal_flow at hrun
  rcases hfh : forbidden_hours cfg.forbiddenUtcHours env.utcHour with e | fh
  · rw [hfh] at hrun
    exact absurd hrun (fun hh => Except.noConfusion hh)
  · rw [hfh] at hrun
    dsimp only at hrun
    cases fh
    case true =>
      rw [if_pos rfl] at hrun
      obtain ⟨h1, h2, h3⟩ := ok3_inj hrun
      exact Or.inl ⟨rfl, h1.symm, h2.symm, h3.symm⟩
    case false =>
      rw [if_neg (by simp)] at hrun
      rcases htd : throttle_and_dedup cfg st env.now symbol
          (payloadOf symbol tf setup price ctx) with ⟨od, st1⟩
      rw [htd] at hrun
      rcases od with _ | msg
      · dsimp only at hrun
        cases hra : (daily_risk_allowed cfg st1 env.today).1
        case false =>
          rw [hra, if_pos rfl] at hrun
          obtain ⟨h1, h2, h3⟩ := ok3_inj hrun
          exact Or.inr (Or.inr ⟨st1, rfl, h2.symm, Or.inl ⟨hra, h1.symm, h3.symm⟩⟩)
        case true =>
          rw [hra, if_neg (by simp)] at hrun
          cases hnb : (news_signal cfg env.newsScores).block
          case true =>
            rw [hnb, if_pos rfl] at hrun
            obtain ⟨h1, h2, h3⟩ := ok3_inj hrun
            exact Or.inr (Or.inr ⟨st1, rfl, h2.symm,
              Or.inr (Or.inl ⟨hra, rfl, h1.symm, h3.symm⟩)⟩)
          case false =>
            rw [hnb, if_neg (by simp)] at hrun
            by_cases hq : quality_score setup env.funding env.lsr (some env.liqs) <
                cfg.qualityMinScore
            · rw [if_pos hq] at hrun
              obtain ⟨h1, h2, h3⟩ := ok3_inj hrun
              exact Or.inr (Or.inr ⟨st1, rfl, h2.symm,
                Or.inr (Or.inr (Or.inl ⟨hra, rfl, hq, h1.symm, h3.symm⟩))⟩)
            · rw [if_neg hq] at hrun
              obtain ⟨h1, h2, h3⟩ := ok3_inj hrun
              exact Or.inr (Or.inr ⟨st1, rfl, h2.symm,
                Or.inr (Or.inr (Or.inr ⟨hra, rfl, hq, h1.symm, h3.symm⟩))⟩)
      · dsimp only at hrun
        obtain ⟨h1, h2, h3⟩ := ok3_inj hrun
        exact Or.inr (Or.inl ⟨msg, by rw [← h2], h1.symm, h3.symm⟩)

/-- The daily-risk access leaves the cooldown/dedup maps untouched. -/
theorem daily_risk_preserves_lastSig (cfg : Config) (st : GuardState) (today : ℤ) :
    (daily_risk_allowed cfg st today).2.lastSigTime = st.lastSigTime := by
  unfold daily_risk_allowed reset_daily_risk_if_new_day
  dsimp only
  split_ifs <;> rfl

/-! ## C2 — notification failure -/

/-- **C2** counterexample: with forwarding enabled and a failing
Telegram send (`envW.sendOk = false`), the pipeline still returns
status `OK` — the failed send (`notifies = [false]`) is not surfaced to
the caller as an operation error, contradicting the claim. -/
theorem notify_failure_not_surfaced_cex :
    (run_signal_flow cfgW initialGuardState envW "BTCUSDT" "15m" "neutral" 0 "").map flowView =
      .ok ("OK", 1, [false]) ∧
    envW.sendOk = false := by decide

/-- **C2** (amended): a notification failure is swallowed, not
surfaced: whatever the Telegram send outcome in the environment, once
the pipeline reaches the LLM stage it returns status `OK` with an empty
reason, and the journal row written before the notification attempt is
kept (at-least-once journal semantics). -/
theorem notify_failure_swallowed :
    ∀ (cfg : Config) (st : GuardState) (env : Env) (symbol tf setup : String)
      (price : ℚ) (ctx : String) (r : FlowResult) (st' : GuardState) (eff : Effects),
      run_signal_flow cfg st env symbol tf setup price ctx = .ok (r, st', eff) →
      eff.llmCalled = true →
      r.status = "OK" ∧ r.reason = "" ∧
      eff.journal = [mkFlowRow cfg env symbol tf setup price] := by
  intro cfg st env symbol tf setup price ctx r st' eff hrun hllm
  rcases flow_ok_cases cfg st env symbol tf setup price ctx r st' eff hrun with
    ⟨_, _, _, heff⟩ | ⟨msg, _, _, heff⟩ | ⟨st1, _, _, hcases⟩
  · subst heff
    exact absurd hllm (by decide)
  · subst heff
    exact absurd hllm (by decide)
  · rcases hcases with ⟨_, _, heff⟩ | ⟨_, _, _, heff⟩ | ⟨_, _, _, _, heff⟩ |
        ⟨_, _, _, hr, heff⟩
    · subst heff
      exact absurd hllm (by decide)
    · subst heff
      exact absurd hllm (by decide)
    · subst heff
      exact absurd hllm (by decide)
    · subst hr heff
      exact ⟨rfl, rfl, rfl⟩

/-- Witness for `notify_failure_swallowed`: the full accepting run of
`notify_failure_not_surfaced_cex`, with the send failing. -/
theorem notify_failure_swallowed_witness :
    (⟨"OK", "", some (mkFlowRow cfgW envW "BTCUSDT" "15m" "neutral" 0),
        some envW.llmOut⟩ : FlowResult).status = "OK" ∧
    (⟨"OK", "", some (mkFlowRow cfgW envW "BTCUSDT" "15m" "neutral" 0),
        some envW.llmOut⟩ : FlowResult).reason = "" ∧
    (⟨true, [mkFlowRow cfgW envW "BTCUSDT" "15m" "neutral" 0], [false]⟩ : Effects).journal =
      [mkFlowRow cfgW envW "BTCUSDT" "15m" "neutral" 0] :=
  notify_failure_swallowed cfgW initialGuardState envW "BTCUSDT" "15m" "neutral" 0 ""
    ⟨"OK", "", some (mkFlowRow cfgW envW "BTCUSDT" "15m" "neutral" 0), some envW.llmOut⟩
    ⟨[("BTCUSDT", 1000)],
     [("BTCUSDT", (md5hex (payloadOf "BTCUSDT" "15m" "neutral" 0 ""), 1000))], 0, some 10⟩
    ⟨true, [mkFlowRow cfgW envW "BTCUSDT" "15m" "neutral" 0], [false]⟩
    (by decide) rfl

/-! ## C3 — eager state consumption -/

/-- **C3** (amended): the guard updates the per-symbol cooldown/dedup
state exactly when both the cooldown and the duplicate check pass — a
throttle rejection (cooldown or duplicate) leaves the state untouched —
and once the throttle passes, the update is kept regardless of any
later-stage rejection (daily risk, news block, quality), so those
rejections still consume the cooldown slot. -/
theorem guard_state_update_semantics :
    (∀ (cfg : Config) (st : GuardState) (now : ℚ) (symbol payload : String)
       (st' : GuardState),
      throttle_and_dedup cfg st now symbol payload = (none, st') →
      dget st'.lastSigTime symbol = some now ∧
      dget st'.lastSigHash symbol = some (md5hex payload, now)) ∧
    (∀ (cfg : Config) (st : GuardState) (now : ℚ) (symbol payload msg : String)
       (st' : GuardState),
      throttle_and_dedup cfg st now symbol payload = (some msg, st') → st' = st) ∧
    (∀ (cfg : Config) (st : GuardState) (env : Env) (symbol tf setup : String)
       (price : ℚ) (ctx : String) (r : FlowResult) (st' : GuardState) (eff : Effects),
      run_signal_flow cfg st env symbol tf setup price ctx = .ok (r, st', eff) →
      forbidden_hours cfg.forbiddenUtcHours env.utcHour = .ok false →
      (∃ msg, throttle_and_dedup cfg st env.now symbol
          (payloadOf symbol tf setup price ctx) = (some msg, st') ∧ st' = st) ∨
      dget st'.lastSigTime symbol = some env.now) := by
  refine ⟨throttle_pass_updates, throttle_reject_keeps_state, ?_⟩
  intro cfg st env symbol tf setup price ctx r st' eff hrun hfh
  rcases flow_ok_cases cfg st env symbol tf setup price ctx r st' eff hrun with
    ⟨hfh', _, _, _⟩ | ⟨msg, htd, _, _⟩ | ⟨st1, htd, hst, _⟩
  · rw [hfh] at hfh'
    exact absurd (Except.ok.inj hfh') (by decide)
  · exact Or.inl ⟨msg, htd,
      throttle_reject_keeps_state cfg st env.now symbol _ msg st' htd⟩
  · right
    rw [hst, show dget (daily_risk_allowed cfg st1 env.today).2.lastSigTime symbol =
        dget st1.lastSigTime symbol from by rw [daily_risk_preserves_lastSig]]
    exact (throttle_pass_updates cfg st env.now symbol _ st1 htd).1

/-- Witness for `guard_state_update_semantics`: a passing throttle call
records the time, and a run rejected by the daily-risk cap (cap lowered
to 1%) still has the cooldown slot consumed in the returned state. -/
theorem guard_state_update_semantics_witness :
    dget ((throttle_and_dedup defaultConfig initialGuardState 1000 "B" "p").2).lastSigTime
      "B" = some 1000 ∧
    ((∃ msg, throttle_and_dedup { defaultConfig with maxDailyRiskPct := 1 }
        initialGuardState 1000 "BTCUSDT" (payloadOf "BTCUSDT" "15m" "neutral" 0 "") =
        (some msg,
         (⟨[("BTCUSDT", 1000)],
           [("BTCUSDT", (md5hex (payloadOf "BTCUSDT" "15m" "neutral" 0 ""), 1000))], 0,
           some 10⟩ : GuardState)) ∧
        (⟨[("BTCUSDT", 1000)],
          [("BTCUSDT", (md5hex (payloadOf "BTCUSDT" "15m" "neutral" 0 ""), 1000))], 0,
          some 10⟩ : GuardState) = initialGuardState) ∨
      dget (⟨[("BTCUSDT", 1000)],
        [("BTCUSDT", (md5hex (payloadOf "BTCUSDT" "15m" "neutral" 0 ""), 1000))], 0,
        some 10⟩ : GuardState).lastSigTime "BTCUSDT" = some 1000) := by
  constructor
  · exact (guard_state_update_semantics.1 defaultConfig initialGuardState 1000 "B" "p"
      (throttle_and_dedup defaultConfig initialGuardState 1000 "B" "p").2 (by decide)).1
  · exact guard_state_update_semantics.2.2 { defaultConfig with maxDailyRiskPct := 1 }
      initialGuardState ⟨1000, 4, 10, "ts", none, none, 1, [], "x", "y", true⟩
      "BTCUSDT" "15m" "neutral" 0 "" (rejectResult "daily_risk_cap")
      ⟨[("BTCUSDT", 1000)],
       [("BTCUSDT", (md5hex (payloadOf "BTCUSDT" "15m" "neutral" 0 ""), 1000))], 0, some 10⟩
      noEffects (by decide) (by decide)

/-! ## C4 — structured rejections -/

/-- **C4**: every result of the pipeline is either a `WAIT` rejection
or the accepting `OK`, and every `WAIT` rejection carries one of the
six machine-readable reasons and performed no LLM call, no journal
write and no notification. -/
theorem gate_rejections_structured_and_effect_free :
    ∀ (cfg : Config) (st : GuardState) (env : Env) (symbol tf setup : String)
      (price : ℚ) (ctx : String) (r : FlowResult) (st' : GuardState) (eff : Effects),
      run_signal_flow cfg st env symbol tf setup price ctx = .ok (r, st', eff) →
      (r.status = "WAIT" ∨ r.status = "OK") ∧
      (r.status = "WAIT" →
        eff.llmCalled = false ∧ eff.journal = [] ∧ eff.notifies = [] ∧
        (r.reason = "forbidden_hours" ∨
         pyStartsWith r.reason "COOLDOWN active (" = true ∨
         r.reason = "DUPLICATE within window" ∨
         r.reason = "daily_risk_cap" ∨
         r.reason = "negative_news_block" ∨
         r.reason = "quality<" ++ toString cfg.qualityMinScore)) := by
  intro cfg st env symbol tf setup price ctx r st' eff hrun
  rcases flow_ok_cases cfg st env symbol tf setup price ctx r st' eff hrun with
    ⟨_, hr, _, heff⟩ | ⟨msg, htd, hr, heff⟩ | ⟨st1, _, _, hcases⟩
  · subst hr heff
    exact ⟨Or.inl rfl, fun _ => ⟨rfl, rfl, rfl, Or.inl rfl⟩⟩
  · subst hr heff
    refine ⟨Or.inl rfl, fun _ => ⟨rfl, rfl, rfl, ?_⟩⟩
    rcases throttle_msg_shape cfg st env.now symbol _ msg st' htd with hm | hm
    · exact Or.inr (Or.inl hm)
    · exact Or.inr (Or.inr (Or.inl hm))
  · rcases hcases with ⟨_, hr, heff⟩ | ⟨_, _, hr, heff⟩ | ⟨_, _, _, hr, heff⟩ |
        ⟨_, _, _, hr, heff⟩
    · subst hr heff
      exact ⟨Or.inl rfl, fun _ => ⟨rfl, rfl, rfl,
        Or.inr (Or.inr (Or.inr (Or.inl rfl)))⟩⟩
    · subst hr heff
      exact ⟨Or.inl rfl, fun _ => ⟨rfl, rfl, rfl,
        Or.inr (Or.inr (Or.inr (Or.inr (Or.inl rfl))))⟩⟩
    · subst hr heff
      exact ⟨Or.inl rfl, fun _ => ⟨rfl, rfl, rfl,
        Or.inr (Or.inr (Or.inr (Or.inr (Or.inr rfl))))⟩⟩
    · subst hr heff
      exact ⟨Or.inr rfl, fun hw => by simp at hw⟩

/-- Witness for `gate_rejections_structured_and_effect_free`: an alert
at UTC hour 2 under the default "0-3" window is rejected with
`forbidden_hours` and no effects. -/
theorem gate_rejections_structured_and_effect_free_witness :
    ((rejectResult "forbidden_hours").status = "WAIT" ∨
      (rejectResult "forbidden_hours").status = "OK") ∧
    ((rejectResult "forbidden_hours").status = "WAIT" →
      noEffects.llmCalled = false ∧ noEffects.journal = [] ∧ noEffects.notifies = [] ∧
      ((rejectResult "forbidden_hours").reason = "forbidden_hours" ∨
       pyStartsWith (rejectResult "forbidden_hours").reason "COOLDOWN active (" = true ∨
       (rejectResult "forbidden_hours").reason = "DUPLICATE within window" ∨
       (rejectResult "forbidden_hours").reason = "daily_risk_cap" ∨
       (rejectResult "forbidden_hours").reason = "negative_news_block" ∨
       (rejectResult "forbidden_hours").reason =
         "quality<" ++ toString defaultConfig.qualityMinScore)) :=
  gate_rejections_structured_and_effect_free defaultConfig initialGuardState
    ⟨1000, 2, 10, "ts", none, none, 1, [], "x", "y", true⟩
    "BTCUSDT" "15m" "neutral" 0 "" (rejectResult "forbidden_hours") initialGuardState
    noEffects (by decide)

/-! ## C9 — vision flow -/

/-- **C9**: the vision-triggered flow performs none of the guard
checks: for every input it returns status `OK` (never a rejection),
leaves the guard state exactly as given (no cooldown/dedup/daily-risk
consumption), always appends exactly one journal row, and always calls
the model. -/
theorem vision_flow_bypasses_guards :
    ∀ (cfg : Config) (st : GuardState) (env : Env) (symbolHint tfHint setupHint : String)
      (priceHint : ℚ) (imageUrl caption : String),
      (run_signal_from_vision cfg st env symbolHint tfHint setupHint priceHint
        imageUrl caption).1.status = "OK" ∧
      (run_signal_from_vision cfg st env symbolHint tfHint setupHint priceHint
        imageUrl caption).1.reason = "" ∧
      (run_signal_from_vision cfg st env symbolHint tfHint setupHint priceHint
        imageUrl caption).2.1 = st ∧
      (run_signal_from_vision cfg st env symbolHint tfHint setupHint priceHint
        imageUrl caption).2.2.journal.length = 1 ∧
      (run_signal_from_vision cfg st env symbolHint tfHint setupHint priceHint
        imageUrl caption).2.2.llmCalled = true := by
  intro cfg st env sh th sth ph iu cap
  exact ⟨rfl, rfl, rfl, rfl, rfl⟩

/-! ## C10 — wrap-around forbidden-hours ranges -/

/-- The inclusive range test of `forbidden_hours` can never fire when
the lower bound exceeds the upper bound. -/
theorem rangeHit_flip_false (A B h : Nat) (hBA : B < A) : rangeHit A B h = false := by
  unfold rangeHit
  by_cases hA : A ≤ h
  · by_cases hB : h ≤ B
    · exact absurd hBA (by omega)
    · simp [hB]
  · simp [hA]

/-- The configured range "22-3" matches no hour at all. -/
theorem fh_wrap_false (h : Nat) : forbidden_hours "22-3" h = .ok false := by
  have hr : rangeHit 22 3 h = false := rangeHit_flip_false 22 3 h (by omega)
  show (if rangeHit 22 3 h then Except.ok true else Except.ok false : Except Unit Bool) =
    Except.ok false
  rw [hr]
  rfl

/-- A quality-gate reason can never spell `forbidden_hours`. -/
theorem append_quality_ne_forbidden (x : String) :
    "quality<" ++ x ≠ "forbidden_hours" := by
  intro hcontra
  have hd := congrArg String.data hcontra
  rw [String.data_append,
    show "quality<".data = 'q' :: "uality<".data from rfl,
    show "forbidden_hours".data = 'f' :: "orbidden_hours".data from rfl] at hd
  injection hd with h1 _
  exact absurd h1 (by decide)

/-- **C10**: a forbidden-hours part `A-B` with `A > B` (such as the
wrap-around overnight range "22-3") never matches any UTC hour, because
the membership test demands `A ≤ h ≤ B`; consequently a pipeline
configured with "22-3" never rejects an alert for forbidden hours. -/
theorem wraparound_hours_never_match :
    (∀ A B h : Nat, B < A → rangeHit A B h = false) ∧
    (∀ h : Nat, forbidden_hours "22-3" h = .ok false) ∧
    (∀ (cfg : Config) (st : GuardState) (env : Env) (symbol tf setup : String)
       (price : ℚ) (ctx : String) (r : FlowResult) (st' : GuardState) (eff : Effects),
      cfg.forbiddenUtcHours = "22-3" →
      run_signal_flow cfg st env symbol tf setup price ctx = .ok (r, st', eff) →
      r.reason ≠ "forbidden_hours") := by
  refine ⟨rangeHit_flip_false, fh_wrap_false, ?_⟩
  intro cfg st env symbol tf setup price ctx r st' eff hcfg hrun hreason
  rcases flow_ok_cases cfg st env symbol tf setup price ctx r st' eff hrun with
    ⟨hfh, _, _, _⟩ | ⟨msg, htd, hr, _⟩ | ⟨st1, _, _, hcases⟩
  · rw [hcfg, fh_wrap_false] at hfh
    exact absurd (Except.ok.inj hfh) (by decide)
  · subst hr
    have hmsg : msg = "forbidden_hours" := hreason
    subst hmsg
    rcases throttle_msg_shape cfg st env.now symbol _ _ st' htd with hm | hm
    · exact absurd hm (by decide)
    · exact absurd hm (by decide)
  · rcases hcases with ⟨_, hr, _⟩ | ⟨_, _, hr, _⟩ | ⟨_, _, _, hr, _⟩ | ⟨_, _, _, hr, _⟩ <;>
      subst hr
    · exact absurd hreason (by decide)
    · exact absurd hreason (by decide)
    · exact append_quality_ne_forbidden _ hreason
    · simp at hreason

/-- Witness for `wraparound_hours_never_match`: hour 2 with the
inverted bounds 22 and 3, and a daily-risk rejection under the "22-3"
configuration whose reason is not `forbidden_hours`. -/
theorem wraparound_hours_never_match_witness :
    rangeHit 22 3 2 = false ∧
    (rejectResult "daily_risk_cap").reason ≠ "forbidden_hours" := by
  constructor
  · exact wraparound_hours_never_match.1 22 3 2 (by omega)
  · exact wraparound_hours_never_match.2.2
      { defaultConfig with forbiddenUtcHours := "22-3", maxDailyRiskPct := 1 }
      initialGuardState ⟨1000, 23, 10, "ts", none, none, 1, [], "x", "y", true⟩
      "BTCUSDT" "15m" "neutral" 0 "" (rejectResult "daily_risk_cap")
      ⟨[("BTCUSDT", 1000)],
       [("BTCUSDT", (md5hex (payloadOf "BTCUSDT" "15m" "neutral" 0 ""), 1000))], 0, some 10⟩
      noEffects rfl (by decide)

/-! ## C7 — response parser -/

/-- An invariant of the parse loop: a property preserved by every
successful `procLine` step over the given lines also survives the
whole loop, including an aborting exception (which returns the
accumulated record). -/
theorem parseRun_invariant (P : Parsed → Prop) :
    ∀ (lines : List String) (out : Parsed),
      (∀ (o : Parsed) (ln : String) (o' : Parsed), ln ∈ lines → P o →
        procLine o ln = .ok o' → P o') →
      P out → P (parseRun out lines).1 := by
  intro lines
  induction lines with
  | nil =>
    intro out _ h
    exact h
  | cons ln rest ih =>
    intro out hstep hout
    unfold parseRun
    rcases hp : procLine out ln with _ | o
    · exact hout
    · exact ih o
        (fun o'' ln' o''' hmem => hstep o'' ln' o''' (List.mem_cons_of_mem _ hmem))
        (hstep out ln o (List.mem_cons_self _ _) hout hp)

/-- A successful `procLine` step on a line whose decision value is not
one of LONG/SHORT/WAIT leaves the `Decision` field unchanged. -/
theorem procLine_decision_step (out o : Parsed) (ln : String)
    (hfail : pyStartsWith (pyLower ln) "decision:" = true →
      ¬(pyUpper (pyTrim (pySplitRest ln)) = "LONG" ∨
        pyUpper (pyTrim (pySplitRest ln)) = "SHORT" ∨
        pyUpper (pyTrim (pySplitRest ln)) = "WAIT"))
    (hp : procLine out ln = .ok o) : o.Decision = out.Decision := by
  unfold procLine at hp
  split_ifs at hp with h1 h2 h3 h4 h5 h6 h7 h8 h9
  · exact absurd h2 (hfail h1)
  · injection hp with hX
    rw [← hX]
  · rcases hq : pyFloat (pyTrim (pySplitRest ln)) with _ | q
    · rw [hq] at hp
      exact absurd hp (fun hh => Except.noConfusion hh)
    · rw [hq] at hp
      injection hp with hX
      rw [← hX]
  · rcases hq : pyFloat (pyTrim (pySplitRest ln)) with _ | q
    · rw [hq] at hp
      exact absurd hp (fun hh => Except.noConfusion hh)
    · rw [hq] at hp
      injection hp with hX
      rw [← hX]
  · rcases hq : pyFloat (pyTrim (pySplitRest ln)) with _ | q
    · rw [hq] at hp
      exact absurd hp (fun hh => Except.noConfusion hh)
    · rw [hq] at hp
      injection hp with hX
      rw [← hX]
  · rcases hq : pyFloat (pyTrim (pySplitRest ln)) with _ | q
    · rw [hq] at hp
      exact absurd hp (fun hh => Except.noConfusion hh)
    · rw [hq] at hp
      injection hp with hX
      rw [← hX]
  · rcases hq : pyFloat (pyTrim (pySplitRest ln)) with _ | q
    · rw [hq] at hp
      exact absurd hp (fun hh => Except.noConfusion hh)
    · rw [hq] at hp
      injection hp with hX
      rw [← hX]
  · injection hp with hX
    rw [← hX]
  · injection hp with hX
    rw [← hX]
  · injection hp with hX
    rw [← hX]

/-- A successful `procLine` step on a line whose `Entry` value fails
numeric parsing (or that is not a `entry:` line at all) leaves the `Entry`
field unchanged. -/
theorem procLine_entry_step (out o : Parsed) (ln : String)
    (hfail : pyStartsWith (pyLower ln) "entry:" = true →
      pyFloat (pyTrim (pySplitRest ln)) = none)
    (hp : procLine out ln = .ok o) : o.Entry = out.Entry := by
  unfold procLine at hp
  split_ifs at hp with h1 h2 h3 h4 h5 h6 h7 h8 h9
  · injection hp with hX
    rw [← hX]
  · injection hp with hX
    rw [← hX]
  · rw [hfail h3] at hp
    exact absurd hp (fun hh => Except.noConfusion hh)
  · rcases hq : pyFloat (pyTrim (pySplitRest ln)) with _ | q
    · rw [hq] at hp
      exact absurd hp (fun hh => Except.noConfusion hh)
    · rw [hq] at hp
      injection hp with hX
      rw [← hX]
  · rcases hq : pyFloat (pyTrim (pySplitRest ln)) with _ | q
    · rw [hq] at hp
      exact absurd hp (fun hh => Except.noConfusion hh)
    · rw [hq] at hp
      injection hp with hX
      rw [← hX]
  · rcases hq : pyFloat (pyTrim (pySplitRest ln)) with _ | q
    · rw [hq] at hp
      exact absurd hp (fun hh => Except.noConfusion hh)
    · rw [hq] at hp
      injection hp with hX
      rw [← hX]
  · rcases hq : pyFloat (pyTrim (pySplitRest ln)) with _ | q
    · rw [hq] at hp
      exact absurd hp (fun hh => Except.noConfusion hh)
    · rw [hq] at hp
      injection hp with hX
      rw [← hX]
  · injection hp with hX
    rw [← hX]
  · injection hp with hX
    rw [← hX]
  · injection hp with hX
    rw [← hX]

/-- A successful `procLine` step on a line whose `SL` value fails
numeric parsing (or that is not a `sl:` line at all) leaves the `SL`
field unchanged. -/
theorem procLine_sl_step (out o : Parsed) (ln : String)
    (hfail : pyStartsWith (pyLower ln) "sl:" = true →
      pyFloat (pyTrim (pySplitRest ln)) = none)
    (hp : procLine out ln = .ok o) : o.SL = out.SL := by
  unfold procLine at hp
  split_ifs at hp with h1 h2 h3 h4 h5 h6 h7 h8 h9
  · injection hp with hX
    rw [← hX]
  · injection hp with hX
    rw [← hX]
  · rcases hq : pyFloat (pyTrim (pySplitRest ln)) with _ | q
    · rw [hq] at hp
      exact absurd hp (fun hh => Except.noConfusion hh)
    · rw [hq] at hp
      injection hp with hX
      rw [← hX]
  · rw [hfail h4] at hp
    exact absurd hp (fun hh => Except.noConfusion hh)
  · rcases hq : pyFloat (pyTrim (pySplitRest ln)) with _ | q
    · rw [hq] at hp
      exact absurd hp (fun hh => Except.noConfusion hh)
    · rw [hq] at hp
      injection hp with hX
      rw [← hX]
  · rcases hq : pyFloat (pyTrim (pySplitRest ln)) with _ | q
    · rw [hq] at hp
      exact absurd hp (fun hh => Except.noConfusion hh)
    · rw [hq] at hp
      injection hp with hX
      rw [← hX]
  · rcases hq : pyFloat (pyTrim (pySplitRest ln)) with _ | q
    · rw [hq] at hp
      exact absurd hp (fun hh => Except.noConfusion hh)
    · rw [hq] at hp
      injection hp with hX
      rw [← hX]
  · injection hp with hX
    rw [← hX]
  · injection hp with hX
    rw [← hX]
  · injection hp with hX
    rw [← hX]

/-- A successful `procLine` step on a line whose `TP1` value fails
numeric parsing (or that is not a `tp1:` line at all) leaves the `TP1`
field unchanged. -/
theorem procLine_tp1_step (out o : Parsed) (ln : String)
    (hfail : pyStartsWith (pyLower ln) "tp1:" = true →
      pyFloat (pyTrim (pySplitRest ln)) = none)
    (hp : procLine out ln = .ok o) : o.TP1 = out.TP1 := by
  unfold procLine at hp
  split_ifs at hp with h1 h2 h3 h4 h5 h6 h7 h8 h9
  · injection hp with hX
    rw [← hX]
  · injection hp with hX
    rw [← hX]
  · rcases hq : pyFloat (pyTrim (pySplitRest ln)) with _ | q
    · rw [hq] at hp
      exact absurd hp (fun hh => Except.noConfusion hh)
    · rw [hq] at hp
      injection hp with hX
      rw [← hX]
  · rcases hq : pyFloat (pyTrim (pySplitRest ln)) with _ | q
    · rw [hq] at hp
      exact absurd hp (fun hh => Except.noConfusion hh)
    · rw [hq] at hp
      injection hp with hX
      rw [← hX]
  · rw [hfail h5] at hp
    exact absurd hp (fun hh => Except.noConfusion hh)
  · rcases hq : pyFloat (pyTrim (pySplitRest ln)) with _ | q
    · rw [hq] at hp
      exact absurd hp (fun hh => Except.noConfusion hh)
    · rw [hq] at hp
      injection hp with hX
      rw [← hX]
  · rcases hq : pyFloat (pyTrim (pySplitRest ln)) with _ | q
    · rw [hq] at hp
      exact absurd hp (fun hh => Except.noConfusion hh)
    · rw [hq] at hp
      injection hp with hX
      rw [← hX]
  · injection hp with hX
    rw [← hX]
  · injection hp with hX
    rw [← hX]
  · injection hp with hX
    rw [← hX]

/-- A successful `procLine` step on a line whose `TP2` value fails
numeric parsing (or that is not a `tp2:` line at all) leaves the `TP2`
field unchanged. -/
theorem procLine_tp2_step (out o : Parsed) (ln : String)
    (hfail : pyStartsWith (pyLower ln) "tp2:" = true →
      pyFloat (pyTrim (pySplitRest ln)) = none)
    (hp : procLine out ln = .ok o) : o.TP2 = out.TP2 := by
  unfold procLine at hp
  split_ifs at hp with h1 h2 h3 h4 h5 h6 h7 h8 h9
  · injection hp with hX
    rw [← hX]
  · injection hp with hX
    rw [← hX]
  · rcases hq : pyFloat (pyTrim (pySplitRest ln)) with _ | q
    · rw [hq] at hp
      exact absurd hp (fun hh => Except.noConfusion hh)
    · rw [hq] at hp
      injection hp with hX
      rw [← hX]
  · rcases hq : pyFloat (pyTrim (pySplitRest ln)) with _ | q
    · rw [hq] at hp
      exact absurd hp (fun hh => Except.noConfusion hh)
    · rw [hq] at hp
      injection hp with hX
      rw [← hX]
  · rcases hq : pyFloat (pyTrim (pySplitRest ln)) with _ | q
    · rw [hq] at hp
      exact absurd hp (fun hh => Except.noConfusion hh)
    · rw [hq] at hp
      injection hp with hX
      rw [← hX]
  · rw [hfail h6] at hp
    exact absurd hp (fun hh => Except.noConfusion hh)
  · rcases hq : pyFloat (pyTrim (pySplitRest ln)) with _ | q
    · rw [hq] at hp
      exact absurd hp (fun hh => Except.noConfusion hh)
    · rw [hq] at hp
      injection hp with hX
      rw [← hX]
  · injection hp with hX
    rw [← hX]
  · injection hp with hX
    rw [← hX]
  · injection hp with hX
    rw [← hX]

/-- A successful `procLine` step on a line whose `RR` value fails
numeric parsing (or that is not a `rr:` line at all) leaves the `RR`
field unchanged. -/
theorem procLine_rr_step (out o : Parsed) (ln : String)
    (hfail : pyStartsWith (pyLower ln) "rr:" = true →
      pyFloat (pyTrim (pySplitRest ln)) = none)
    (hp : procLine out ln = .ok o) : o.RR = out.RR := by
  unfold procLine at hp
  split_ifs at hp with h1 h2 h3 h4 h5 h6 h7 h8 h9
  · injection hp with hX
    rw [← hX]
  · injection hp with hX
    rw [← hX]
  · rcases hq : pyFloat (pyTrim (pySplitRest ln)) with _ | q
    · rw [hq] at hp
      exact absurd hp (fun hh => Except.noConfusion hh)
    · rw [hq] at hp
      injection hp with hX
      rw [← hX]
  · rcases hq : pyFloat (pyTrim (pySplitRest ln)) with _ | q
    · rw [hq] at hp
      exact absurd hp (fun hh => Except.noConfusion hh)
    · rw [hq] at hp
      injection hp with hX
      rw [← hX]
  · rcases hq : pyFloat (pyTrim (pySplitRest ln)) with _ | q
    · rw [hq] at hp
      exact absurd hp (fun hh => Except.noConfusion hh)
    · rw [hq] at hp
      injection hp with hX
      rw [← hX]
  · rcases hq : pyFloat (pyTrim (pySplitRest ln)) with _ | q
    · rw [hq] at hp
      exact absurd hp (fun hh => Except.noConfusion hh)
    · rw [hq] at hp
      injection hp with hX
      rw [← hX]
  · rw [hfail h7] at hp
    exact absurd hp (fun hh => Except.noConfusion hh)
  · injection hp with hX
    rw [← hX]
  · injection hp with hX
    rw [← hX]
  · injection hp with hX
    rw [← hX]

/-- A successful `procLine` step on a line that is not a `why:` line
leaves the `Why` field unchanged. -/
theorem procLine_why_step (out o : Parsed) (ln : String)
    (hfail : pyStartsWith (pyLower ln) "why:" = false)
    (hp : procLine out ln = .ok o) : o.Why = out.Why := by
  unfold procLine at hp
  split_ifs at hp with h1 h2 h3 h4 h5 h6 h7 h8 h9
  · injection hp with hX
    rw [← hX]
  · injection hp with hX
    rw [← hX]
  · rcases hq : pyFloat (pyTrim (pySplitRest ln)) with _ | q
    · rw [hq] at hp
      exact absurd hp (fun hh => Except.noConfusion hh)
    · rw [hq] at hp
      injection hp with hX
      rw [← hX]
  · rcases hq : pyFloat (pyTrim (pySplitRest ln)) with _ | q
    · rw [hq] at hp
      exact absurd hp (fun hh => Except.noConfusion hh)
    · rw [hq] at hp
      injection hp with hX
      rw [← hX]
  · rcases hq : pyFloat (pyTrim (pySplitRest ln)) with _ | q
    · rw [hq] at hp
      exact absurd hp (fun hh => Except.noConfusion hh)
    · rw [hq] at hp
      injection hp with hX
      rw [← hX]
  · rcases hq : pyFloat (pyTrim (pySplitRest ln)) with _ | q
    · rw [hq] at hp
      exact absurd hp (fun hh => Except.noConfusion hh)
    · rw [hq] at hp
      injection hp with hX
      rw [← hX]
  · rcases hq : pyFloat (pyTrim (pySplitRest ln)) with _ | q
    · rw [hq] at hp
      exact absurd hp (fun hh => Except.noConfusion hh)
    · rw [hq] at hp
      injection hp with hX
      rw [← hX]
  · rw [hfail] at h8
    exact absurd h8 (by decide)
  · injection hp with hX
    rw [← hX]
  · injection hp with hX
    rw [← hX]

/-- A successful `procLine` step on a line that is not a `risk:` line
leaves the `Risk` field unchanged. -/
theorem procLine_risk_step (out o : Parsed) (ln : String)
    (hfail : pyStartsWith (pyLower ln) "risk:" = false)
    (hp : procLine out ln = .ok o) : o.Risk = out.Risk := by
  unfold procLine at hp
  split_ifs at hp with h1 h2 h3 h4 h5 h6 h7 h8 h9
  · injection hp with hX
    rw [← hX]
  · injection hp with hX
    rw [← hX]
  · rcases hq : pyFloat (pyTrim (pySplitRest ln)) with _ | q
    · rw [hq] at hp
      exact absurd hp (fun hh => Except.noConfusion hh)
    · rw [hq] at hp
      injection hp with hX
      rw [← hX]
  · rcases hq : pyFloat (pyTrim (pySplitRest ln)) with _ | q
    · rw [hq] at hp
      exact absurd hp (fun hh => Except.noConfusion hh)
    · rw [hq] at hp
      injection hp with hX
      rw [← hX]
  · rcases hq : pyFloat (pyTrim (pySplitRest ln)) with _ | q
    · rw [hq] at hp
      exact absurd hp (fun hh => Except.noConfusion hh)
    · rw [hq] at hp
      injection hp with hX
      rw [← hX]
  · rcases hq : pyFloat (pyTrim (pySplitRest ln)) with _ | q
    · rw [hq] at hp
      exact absurd hp (fun hh => Except.noConfusion hh)
    · rw [hq] at hp
      injection hp with hX
      rw [← hX]
  · rcases hq : pyFloat (pyTrim (pySplitRest ln)) with _ | q
    · rw [hq] at hp
      exact absurd hp (fun hh => Except.noConfusion hh)
    · rw [hq] at hp
      injection hp with hX
      rw [← hX]
  · injection hp with hX
    rw [← hX]
  · rw [hfail] at h9
    exact absurd h9 (by decide)
  · injection hp with hX
    rw [← hX]

/-- **C7**: the response parser never raises outward (it is the total
function `parse_signal`, which returns the accumulated record even when
the line loop aborts on an exception — first conjunct), and every field
whose line is absent or whose value fails parsing keeps its default
(Decision WAIT, Entry/SL/TP1/TP2 0, RR 1.5, Why/Risk empty). -/
theorem parse_signal_never_raises_and_defaults :
    (∀ (text : String) (out : Parsed),
      parseRun parseDefaults (linesOf text) = (out, true) → parse_signal text = out) ∧
    (∀ text : String,
      (((linesOf text).all fun ln => !pyStartsWith (pyLower ln) "decision:" ||
          !(pyUpper (pyTrim (pySplitRest ln)) == "LONG" ||
            pyUpper (pyTrim (pySplitRest ln)) == "SHORT" ||
            pyUpper (pyTrim (pySplitRest ln)) == "WAIT")) = true →
        (parse_signal text).Decision = "WAIT") ∧
      (((linesOf text).all fun ln => !pyStartsWith (pyLower ln) "entry:" ||
          (pyFloat (pyTrim (pySplitRest ln))).isNone) = true →
        (parse_signal text).Entry = 0) ∧
      (((linesOf text).all fun ln => !pyStartsWith (pyLower ln) "sl:" ||
          (pyFloat (pyTrim (pySplitRest ln))).isNone) = true →
        (parse_signal text).SL = 0) ∧
      (((linesOf text).all fun ln => !pyStartsWith (pyLower ln) "tp1:" ||
          (pyFloat (pyTrim (pySplitRest ln))).isNone) = true →
        (parse_signal text).TP1 = 0) ∧
      (((linesOf text).all fun ln => !pyStartsWith (pyLower ln) "tp2:" ||
          (pyFloat (pyTrim (pySplitRest ln))).isNone) = true →
        (parse_signal text).TP2 = 0) ∧
      (((linesOf text).all fun ln => !pyStartsWith (pyLower ln) "rr:" ||
          (pyFloat (pyTrim (pySplitRest ln))).isNone) = true →
        (parse_signal text).RR = 3 / 2) ∧
      (((linesOf text).all fun ln => !pyStartsWith (pyLower ln) "why:") = true →
        (parse_signal text).Why = "") ∧
      (((linesOf text).all fun ln => !pyStartsWith (pyLower ln) "risk:") = true →
        (parse_signal text).Risk = "")) := by
  constructor
  · intro text out h
    unfold parse_signal
    rw [h]
  intro text
  refine ⟨?_, ?_, ?_, ?_, ?_, ?_, ?_, ?_⟩
  · intro hall
    unfold parse_signal
    refine parseRun_invariant (fun p => p.Decision = "WAIT") (linesOf text) parseDefaults ?_ rfl
    intro o ln o' hmem ho hp
    have hfail : pyStartsWith (pyLower ln) "decision:" = true →
        ¬(pyUpper (pyTrim (pySplitRest ln)) = "LONG" ∨
          pyUpper (pyTrim (pySplitRest ln)) = "SHORT" ∨
          pyUpper (pyTrim (pySplitRest ln)) = "WAIT") := by
      intro hstart hcontra
      have hb := List.all_eq_true.mp hall ln hmem
      rw [Bool.or_eq_true] at hb
      rcases hb with hb | hb
      · rw [hstart] at hb
        exact absurd hb (by decide)
      · rcases hcontra with h | h | h <;> rw [h] at hb <;> exact absurd hb (by decide)
    rw [procLine_decision_step o o' ln hfail hp]
    exact ho
  · intro hall
    unfold parse_signal
    refine parseRun_invariant (fun p => p.Entry = 0) (linesOf text) parseDefaults ?_ rfl
    intro o ln o' hmem ho hp
    have hfail : pyStartsWith (pyLower ln) "entry:" = true →
        pyFloat (pyTrim (pySplitRest ln)) = none := by
      intro hstart
      have hb := List.all_eq_true.mp hall ln hmem
      rw [Bool.or_eq_true] at hb
      rcases hb with hb | hb
      · rw [hstart] at hb
        exact absurd hb (by decide)
      · exact Option.isNone_iff_eq_none.mp hb
    rw [procLine_entry_step o o' ln hfail hp]
    exact ho
  · intro hall
    unfold parse_signal
    refine parseRun_invariant (fun p => p.SL = 0) (linesOf text) parseDefaults ?_ rfl
    intro o ln o' hmem ho hp
    have hfail : pyStartsWith (pyLower ln) "sl:" = true →
        pyFloat (pyTrim (pySplitRest ln)) = none := by
      intro hstart
      have hb := List.all_eq_true.mp hall ln hmem
      rw [Bool.or_eq_true] at hb
      rcases hb with hb | hb
      · rw [hstart] at hb
        exact absurd hb (by decide)
      · exact Option.isNone_iff_eq_none.mp hb
    rw [procLine_sl_step o o' ln hfail hp]
    exact ho
  · intro hall
    unfold parse_signal
    refine parseRun_invariant (fun p => p.TP1 = 0) (linesOf text) parseDefaults ?_ rfl
    intro o ln o' hmem ho hp
    have hfail : pyStartsWith (pyLower ln) "tp1:" = true →
        pyFloat (pyTrim (pySplitRest ln)) = none := by
      intro hstart
      have hb := List.all_eq_true.mp hall ln hmem
      rw [Bool.or_eq_true] at hb
      rcases hb with hb | hb
      · rw [hstart] at hb
        exact absurd hb (by decide)
      · exact Option.isNone_iff_eq_none.mp hb
    rw [procLine_tp1_step o o' ln hfail hp]
    exact ho
  · intro hall
    unfold parse_signal
    refine parseRun_invariant (fun p => p.TP2 = 0) (linesOf text) parseDefaults ?_ rfl
    intro o ln o' hmem ho hp
    have hfail : pyStartsWith (pyLower ln) "tp2:" = true →
        pyFloat (pyTrim (pySplitRest ln)) = none := by
      intro hstart
      have hb := List.all_eq_true.mp hall ln hmem
      rw [Bool.or_eq_true] at hb
      rcases hb with hb | hb
      · rw [hstart] at hb
        exact absurd hb (by decide)
      · exact Option.isNone_iff_eq_none.mp hb
    rw [procLine_tp2_step o o' ln hfail hp]
    exact ho
  · intro hall
    unfold parse_signal
    refine parseRun_invariant (fun p => p.RR = 3 / 2) (linesOf text) parseDefaults ?_ rfl
    intro o ln o' hmem ho hp
    have hfail : pyStartsWith (pyLower ln) "rr:" = true →
        pyFloat (pyTrim (pySplitRest ln)) = none := by
      intro hstart
      have hb := List.all_eq_true.mp hall ln hmem
      rw [Bool.or_eq_true] at hb
      rcases hb with hb | hb
      · rw [hstart] at hb
        exact absurd hb (by decide)
      · exact Option.isNone_iff_eq_none.mp hb
    rw [procLine_rr_step o o' ln hfail hp]
    exact ho
  · intro hall
    unfold parse_signal
    refine parseRun_invariant (fun p => p.Why = "") (linesOf text) parseDefaults ?_ rfl
    intro o ln o' hmem ho hp
    have hfail : pyStartsWith (pyLower ln) "why:" = false := by
      have hb := List.all_eq_true.mp hall ln hmem
      rcases hb' : pyStartsWith (pyLower ln) "why:"
      · rfl
      · rw [hb'] at hb
        exact absurd hb (by decide)
    rw [procLine_why_step o o' ln hfail hp]
    exact ho
  · intro hall
    unfold parse_signal
    refine parseRun_invariant (fun p => p.Risk = "") (linesOf text) parseDefaults ?_ rfl
    intro o ln o' hmem ho hp
    have hfail : pyStartsWith (pyLower ln) "risk:" = false := by
      have hb := List.all_eq_true.mp hall ln hmem
      rcases hb' : pyStartsWith (pyLower ln) "risk:"
      · rfl
      · rw [hb'] at hb
        exact absurd hb (by decide)
    rw [procLine_risk_step o o' ln hfail hp]
    exact ho

/-- Witness for `parse_signal_never_raises_and_defaults`: a reply whose
decision value is invalid and whose entry fails float parsing (aborting
the loop) keeps every default. -/
theorem parse_signal_never_raises_and_defaults_witness :
    parse_signal "Decision: MAYBE\nEntry: abc\nSL: 95" = parseDefaults ∧
    (parse_signal "Decision: MAYBE\nEntry: abc\nSL: 95").Decision = "WAIT" ∧
    (parse_signal "Decision: MAYBE\nEntry: abc\nSL: 95").Entry = 0 := by
  refine ⟨?_, ?_, ?_⟩
  · exact parse_signal_never_raises_and_defaults.1 "Decision: MAYBE\nEntry: abc\nSL: 95"
      parseDefaults (by decide)
  · exact (parse_signal_never_raises_and_defaults.2 "Decision: MAYBE\nEntry: abc\nSL: 95").1
      (by decide)
  · exact ((parse_signal_never_raises_and_defaults.2 "Decision: MAYBE\nEntry: abc\nSL: 95").2).1
      (by decide)


end TradingBot
